import Mathlib

/-!
# A verification development for the yk meta-tracing JIT runtime

This file gives a shallow embedding, in Lean 4, of the parts of the yk
runtime that the specification's claims are about:

* the control-point state machine of `ykrt/src/mt.rs`
  (`MT::transition_control_point`, `MT::shutdown`,
  `MT::set_trace_failure_threshold`, `MT::queue_root_compile_job`);
* the Intel PT trace decoder of `hwtracer/src/pt/ykpt/mod.rs`
  (`YkPTBlockIterator::packet`, `is_return_compressed`,
  `follow_blockmap_successor`, `CompressedReturns`);
* the spill bookkeeping of the linear-scan register allocator of
  `ykrt/src/compile/jitc_yk/codegen/x64/lsregalloc.rs`;
* the `SwitchInt` terminator of the stopgap interpreter of
  `internal_ws/yksg/src/lib.rs`.

Conventions used throughout the embedding:

* Rust machine integers (`u32`, `u16`, `u64`, `usize`, `u128`) are embedded
  as `Nat`; none of the modelled operations can overflow in the scenarios
  the claims quantify over, and where the source guards a bound it is
  modelled explicitly.
* Raw pointers (`*const Mutex<HotLocation>`, `*mut c_void`) are embedded as
  opaque numeric identifiers: hot locations, compiled traces, and frame
  addresses are `Nat` ids.  `Arc::ptr_eq` becomes equality of ids.
* Functions that can panic (`todo!()`, `unreachable!()`, `panic!`, failing
  `assert!`/index/`unwrap`) are embedded in `Except`, with a constructor of
  an error type per panic site.  `debug_assert!` is treated the same way:
  it states the function's contract, and a call violating it is an error
  value rather than a silent overwrite.
* Mutexes disappear: the embedding is sequential, modelling an uncontended
  (or `yk_testing`-serialised) execution, which is also the mode in which
  `transition_control_point` is guaranteed to take every lock.  The one
  place concurrency leaks into a return value -- the
  `Arc::strong_count(&hl) == 2` liveness test for a tracing thread that
  died -- is modelled by an oracle `sc2 : Nat → Bool` passed in as a
  parameter.
* Code of the repository that the claims depend on but whose file is not
  part of the source tree (`ykrt/src/location.rs`,
  `hwtracer/src/pt/ykpt/packets.rs`, `codegen/abs_stack.rs`) is modelled
  from the specification; each such definition's doc comment starts with
  "Modelled from the spec:".
-/

namespace Yk

/-- Pointwise update of a total map, used for the location/hot-location
tables of the embedded runtime state. -/
def updf {α : Type} (f : Nat → α) (k : Nat) (v : α) : Nat → α :=
  fun i => if i = k then v else f i

@[simp] theorem updf_same {α : Type} (f : Nat → α) (k : Nat) (v : α) :
    updf f k v k = v := by
  simp [updf]

@[simp] theorem updf_other {α : Type} (f : Nat → α) (k i : Nat) (v : α) (h : i ≠ k) :
    updf f k v i = f i := by
  simp [updf, h]

/-! ## The control-point state machine (`ykrt/src/mt.rs`) -/

/-- `HotLocationKind` (from `ykrt/src/location.rs`, whose shape is pinned by
every `match` on it in `mt.rs` and by §3 of the spec): the state of a hot
location.  Compiled traces are identified by numeric ids. -/
inductive HotLocationKind where
  | counting (n : Nat)
  | tracing
  | compiling
  | compiled (ctr : Nat)
  | sideTracing (root_ctr : Nat) (gidx : Nat) (parent_ctr : Nat)
  | dontTrace
deriving DecidableEq, Repr

/-- `HotLocation`: kind plus the trace-compilation error counter. -/
structure HotLocation where
  kind : HotLocationKind
  tracecompilation_errors : Nat
deriving DecidableEq, Repr

/-- `TraceFailed` (from `ykrt/src/location.rs`): result of
`HotLocation::tracecompilation_error`. -/
inductive TraceFailed where
  | keepTrying
  | dontTrace
deriving DecidableEq, Repr

/-- Modelled from the spec: `HotLocation::tracecompilation_error` lives in
`ykrt/src/location.rs`, which is not part of the source tree.  Per §4.1.7,
it "increments the error counter and returns either `KeepTrying` or
`DontTrace` (when the counter exceeds the configured failure threshold)".
`thr` is `MT::trace_failure_threshold`. -/
def tracecompilation_error (hl : HotLocation) (thr : Nat) : HotLocation × TraceFailed :=
  let errs := hl.tracecompilation_errors + 1
  ({ hl with tracecompilation_errors := errs },
   if errs > thr then TraceFailed.dontTrace else TraceFailed.keepTrying)

/-- The one-word `Location` of `ykrt/src/location.rs`: either a counter or
a (tagged) pointer to a `HotLocation`, the latter embedded as an id into
the hot-location table. -/
inductive LocInner where
  | counter (n : Nat)
  | hot (hlid : Nat)
deriving DecidableEq, Repr

/-- A worker thread's `JoinHandle`, as far as `MT::shutdown` observes it:
whether the thread has finished, and whether joining it yields a panic. -/
structure WorkerHandle where
  finished : Bool
  panicked : Bool
deriving DecidableEq, Repr

/-- The state of an `MT` instance (the fields of `struct MT` in `mt.rs`
that the claims touch), together with the process-wide location table.
`locs` maps location ids to their one-word state; `hls` maps hot-location
ids to `HotLocation` records; `next_hl` is the allocator for fresh
hot-location ids.  `stats_output_count` counts how many times the shutdown
statistics work has been performed (the effect of `self.stats.output()`),
and `compiled_traces` is the compiled-trace registry. -/
structure MT where
  shutdown : Bool
  hot_threshold : Nat
  sidetrace_threshold : Nat
  trace_failure_threshold : Nat
  locs : Nat → LocInner
  hls : Nat → HotLocation
  next_hl : Nat
  compiled_traces : List (Nat × Nat)
  stats_output_count : Nat
  active_worker_threads : List WorkerHandle

/-- Replace the `HotLocation` record behind id `hlid`. -/
def MT.setHl (mt : MT) (hlid : Nat) (hl : HotLocation) : MT :=
  { mt with hls := updf mt.hls hlid hl }

/-- Mutate only the `kind` of the `HotLocation` behind id `hlid` (the
effect of `lk.kind = ...` under the lock). -/
def MT.setHlKind (mt : MT) (hlid : Nat) (k : HotLocationKind) : MT :=
  mt.setHl hlid { mt.hls hlid with kind := k }

/-- Panics of the embedded runtime: one constructor per `panic!`/`todo!`/
`unreachable!`/failing-`assert!` site reachable from the modelled code. -/
inductive RtPanic where
  | todoSite
  | assertFail
  | emptyStack
  | mapIndexFail
  | thresholdTooSmall
  | workerPanic
deriving DecidableEq, Repr

/-- `MT::shutdown` (mt.rs:152-167): swap the shutdown flag; if it was not
already set, output statistics and drain the worker-thread handles, joining
every finished one and re-raising (here: returning as an error) any panic a
worker died with.  Handles that are not finished are dropped from the list
without joining. -/
def MT.mt_shutdown (mt : MT) : Except RtPanic MT :=
  if mt.shutdown then Except.ok mt
  else
    let mt1 := { mt with shutdown := true, stats_output_count := mt.stats_output_count + 1 }
    if mt1.active_worker_threads.any (fun h => h.finished && h.panicked) then
      Except.error RtPanic.workerPanic
    else
      Except.ok { mt1 with active_worker_threads := [] }

/-- `MT::set_trace_failure_threshold` (mt.rs:200-209): panics when the new
threshold is `< 1`, otherwise stores it. -/
def MT.set_trace_failure_threshold (mt : MT) (trace_failure_threshold : Nat) :
    Except RtPanic MT :=
  if trace_failure_threshold < 1 then
    Except.error RtPanic.thresholdTooSmall
  else
    Except.ok { mt with trace_failure_threshold := trace_failure_threshold }

/-- Iterated `MT::shutdown`: call the shutdown method `n` times in a row
(stopping at the first panic). -/
def MT.mt_shutdown_iter (mt : MT) : Nat → Except RtPanic MT
  | 0 => Except.ok mt
  | n + 1 =>
    match mt.mt_shutdown with
    | Except.ok mt' => mt'.mt_shutdown_iter n
    | Except.error e => Except.error e

/-- `MTThreadState` (mt.rs:1054-1103), one element of a thread's `tstate`
stack.  A `Tracing` frame carries the hot-location id the trace will end
at, the `frameaddr` recorded when tracing started, the `seen_hls` map
(hot-location id to the control-point index it was last seen at), the
current `cp_idx`, and the promotion/debug-string buffers.  The trace
recorder handle has no observable state and is dropped.  We represent the
stack as a `List` whose *head* is the most recently pushed element. -/
inductive MTThreadState where
  | interpreting
  | tracing (hl : Nat) (frameaddr : Nat) (seen_hls : List (Nat × Nat)) (cp_idx : Nat)
      (promotions : List Nat) (debug_strs : List String)
  | executing (ctr : Nat)
deriving DecidableEq, Repr

/-- `MTThread::is_tracing` (mt.rs:1173-1177): is any frame of the stack a
`Tracing` frame? -/
def is_tracing (ts : List MTThreadState) : Bool :=
  ts.any fun s =>
    match s with
    | MTThreadState.tracing _ _ _ _ _ _ => true
    | _ => false

/-- `seen_hls.contains_key(&key)`: the `HashMap` is embedded as an
association list (only membership and lookup are used by the source). -/
def seenContains (seen : List (Nat × Nat)) (key : Nat) : Bool :=
  seen.any fun kv => kv.1 = key

/-- `seen_hls[&key]`, as an `Option` (the source's indexing panics when the
key is absent; every use is guarded by `contains_key`). -/
def seenLookup (seen : List (Nat × Nat)) (key : Nat) : Option Nat :=
  (seen.find? fun kv => kv.1 = key).map fun kv => kv.2

/-- `seen_hls.insert(key, v)`; the source only inserts keys that are not
yet present, so prepending preserves the map semantics. -/
def seenInsert (seen : List (Nat × Nat)) (key v : Nat) : List (Nat × Nat) :=
  (key, v) :: seen

/-- `TransitionControlPoint` (mt.rs:1333-1351): what the caller of
`transition_control_point` should do. -/
inductive AbortKind where
  | backIntoExecution
  | encounteredCompiledTrace
  | outOfFrame
  | unrolled
deriving DecidableEq, Repr

inductive Transition where
  | noAction
  | abortTracing (k : AbortKind)
  | execute (ctr : Nat)
  | startTracing (hl : Nat)
  | stopTracing (start_cp_idx : Nat)
  | stopSideTracing (gidx : Nat) (parent_ctr : Nat) (root_ctr : Nat)
deriving DecidableEq, Repr

/-- Modelled from the spec: `Location::inc_count` lives in
`ykrt/src/location.rs`, which is not part of the source tree.  Per §4.1.1
it atomically increments the location's counter word; per the uses in
`mt.rs` (and the test `basic_transitions`, which asserts
`loc.count() == Some(i + 1)` after each call) it returns the incremented
count.  In this sequential embedding the compare-exchange always succeeds,
so the `None` (caught-mid-update) case cannot occur; callers still match
on it, mirroring the source. -/
def inc_count (n : Nat) : Option Nat :=
  some (n + 1)

/-- Modelled from the spec: `Location::count_to_hot_location` lives in
`ykrt/src/location.rs`.  Per §4.1.1 it replaces the counter word with a
tagged pointer to a freshly allocated `HotLocation`; in this sequential
embedding the thread always wins the race, so the function always returns
the new hot location (its fresh id here). -/
def MT.count_to_hot_location (mt : MT) (loc : Nat) (hl : HotLocation) : Nat × MT :=
  (mt.next_hl,
   { mt with
     locs := updf mt.locs loc (LocInner.hot mt.next_hl)
     hls := updf mt.hls mt.next_hl hl
     next_hl := mt.next_hl + 1 })

/-- The `if let Some(akind) = akind` block of `transition_control_point`
(mt.rs:655-679): record a trace-recording error against the tracing
thread's own hot location `thl` and return `AbortTracing(ak)`.  The
`Compiled`/`Compiling`/`Counting`/`DontTrace` arms are `todo!()` in the
source. -/
def MT.tcp_abort (mt : MT) (ts : List MTThreadState) (thl : Nat) (ak : AbortKind) :
    Except RtPanic (Transition × MT × List MTThreadState) :=
  match (mt.hls thl).kind with
  | HotLocationKind.compiled _ => Except.error RtPanic.todoSite
  | HotLocationKind.compiling => Except.error RtPanic.todoSite
  | HotLocationKind.counting _ => Except.error RtPanic.todoSite
  | HotLocationKind.dontTrace => Except.error RtPanic.todoSite
  | HotLocationKind.tracing =>
    let (hl', tf) := tracecompilation_error (mt.hls thl) mt.trace_failure_threshold
    let k := match tf with
      | TraceFailed.keepTrying => HotLocationKind.counting 0
      | TraceFailed.dontTrace => HotLocationKind.dontTrace
    Except.ok (Transition.abortTracing ak, mt.setHl thl { hl' with kind := k }, ts)
  | HotLocationKind.sideTracing root _ _ =>
    Except.ok (Transition.abortTracing ak, mt.setHlKind thl (HotLocationKind.compiled root), ts)

/-- The post-lock `match lk.kind` of `transition_control_point`
(mt.rs:728-829).  `sc2 hlid` is the `Arc::strong_count(&hl) == 2` oracle
(true iff the thread that was tracing `hlid` has died).  In this
sequential embedding the `HotLocation` lock is always acquired (as in the
`yk_testing` configuration; in other configurations a contended try-lock
may instead fall back to `NoAction`). -/
def MT.tcp_hot_main (sc2 : Nat → Bool) (mt : MT) (ts : List MTThreadState)
    (hlid : Nat) (tracing? : Bool) :
    Except RtPanic (Transition × MT × List MTThreadState) :=
  match (mt.hls hlid).kind with
  | HotLocationKind.compiled ctr =>
    if tracing? then
      Except.ok (Transition.abortTracing AbortKind.encounteredCompiledTrace, mt, ts)
    else
      Except.ok (Transition.execute ctr, mt, ts)
  | HotLocationKind.compiling => Except.ok (Transition.noAction, mt, ts)
  | HotLocationKind.counting c =>
    if tracing? then
      Except.ok (Transition.noAction, mt, ts)
    else if c < mt.hot_threshold then
      Except.ok (Transition.noAction, mt.setHlKind hlid (HotLocationKind.counting (c + 1)), ts)
    else
      Except.ok (Transition.startTracing hlid, mt.setHlKind hlid HotLocationKind.tracing, ts)
  | HotLocationKind.tracing =>
    match ts with
    | [] => Except.error RtPanic.emptyStack
    | MTThreadState.tracing thl _ _ _ _ _ :: _ =>
      if thl ≠ hlid then
        Except.ok (Transition.noAction, mt, ts)
      else
        Except.ok (Transition.stopTracing 0, mt.setHlKind hlid HotLocationKind.compiling, ts)
    | _ :: _ =>
      if sc2 hlid then
        let (hl', tf) := tracecompilation_error (mt.hls hlid) mt.trace_failure_threshold
        match tf with
        | TraceFailed.keepTrying =>
          Except.ok (Transition.startTracing hlid,
            mt.setHl hlid { hl' with kind := HotLocationKind.tracing }, ts)
        | TraceFailed.dontTrace =>
          Except.ok (Transition.noAction,
            mt.setHl hlid { hl' with kind := HotLocationKind.dontTrace }, ts)
      else
        Except.ok (Transition.noAction, mt, ts)
  | HotLocationKind.sideTracing root gidx parent =>
    match ts with
    | [] => Except.error RtPanic.emptyStack
    | MTThreadState.tracing thl _ _ _ _ _ :: _ =>
      if thl ≠ hlid then
        Except.ok (Transition.noAction, mt, ts)
      else
        Except.ok (Transition.stopSideTracing gidx parent root,
          mt.setHlKind hlid (HotLocationKind.compiled root), ts)
    | _ :: _ =>
      if tracing? then Except.error RtPanic.assertFail
      else Except.ok (Transition.execute root, mt, ts)
  | HotLocationKind.dontTrace => Except.ok (Transition.noAction, mt, ts)

/-- `MT::transition_control_point` (mt.rs:598-898).  Takes the state of
the `MT` instance, the calling thread's `tstate` stack (head = top), the
location id and the interpreter frame address; returns the chosen
transition plus updated state, or a panic.

The source guards its tracing-thread block with `if is_tracing` and then
`if let MTThreadState::Tracing {..} = mtt.peek_mut_tstate()`; a top-of-
stack `Tracing` frame implies `is_tracing`, so the two tests collapse into
one pattern match on the head of the stack. -/
def MT.transition_control_point (sc2 : Nat → Bool) (mt : MT) (ts : List MTThreadState)
    (loc : Nat) (frameaddr : Nat) :
    Except RtPanic (Transition × MT × List MTThreadState) :=
  let tracing? := is_tracing ts
  match mt.locs loc with
  | LocInner.hot hlid =>
    match ts with
    | MTThreadState.tracing thl tfa seen cpi proms dstrs :: rest =>
      -- The thread is tracing and its top state frame is the `Tracing` one.
      let akind : Option AbortKind :=
        if frameaddr ≠ tfa then some AbortKind.outOfFrame else none
      if seenContains seen hlid then
        -- We found an inner loop (mt.rs:626-649).
        match (mt.hls hlid).kind with
        | HotLocationKind.counting _ =>
          match seenLookup seen hlid with
          | some idx =>
            let mt1 := mt.setHlKind thl (HotLocationKind.counting 0)
            let mt2 := mt1.setHlKind hlid HotLocationKind.compiling
            -- `*tracing_hl = loc.hot_location_arc_clone().unwrap()`
            Except.ok (Transition.stopTracing idx, mt2,
              MTThreadState.tracing hlid tfa seen cpi proms dstrs :: rest)
          | none => Except.error RtPanic.mapIndexFail
        | _ => mt.tcp_abort (MTThreadState.tracing thl tfa seen cpi proms dstrs :: rest)
            thl AbortKind.unrolled
      else
        let ts1 := MTThreadState.tracing thl tfa (seenInsert seen hlid cpi) cpi proms dstrs :: rest
        match akind with
        | some ak => mt.tcp_abort ts1 thl ak
        | none => mt.tcp_hot_main sc2 ts1 hlid tracing?
    | _ => mt.tcp_hot_main sc2 ts hlid tracing?
  | LocInner.counter cnt =>
    if tracing? then
      -- mt.rs:831-867: force the cold location to become a hot location in
      -- the `Counting` state so it can be tracked in `seen_hls`.
      match inc_count cnt with
      | some count =>
        let (hlid, mt1) := mt.count_to_hot_location loc
          { kind := HotLocationKind.counting count, tracecompilation_errors := 0 }
        match ts with
        | MTThreadState.tracing thl tfa seen cpi proms dstrs :: rest =>
          if frameaddr ≠ tfa then
            Except.ok (Transition.abortTracing AbortKind.outOfFrame, mt1,
              MTThreadState.tracing thl tfa seen cpi proms dstrs :: rest)
          else if seenContains seen hlid then
            Except.error RtPanic.todoSite
          else
            Except.ok (Transition.noAction, mt1,
              MTThreadState.tracing thl tfa (seenInsert seen hlid cpi) cpi proms dstrs :: rest)
        | _ =>
          -- `is_tracing` is true but the top frame is not `Tracing`:
          -- the source's `let ... else { panic!() }`.
          Except.error RtPanic.emptyStack
      | none => Except.ok (Transition.noAction, mt, ts)
    else
      match inc_count cnt with
      | some x =>
        let mt1 := { mt with locs := updf mt.locs loc (LocInner.counter x) }
        if x < mt.hot_threshold + 1 then
          Except.ok (Transition.noAction, mt1, ts)
        else
          let (hlid, mt2) := mt1.count_to_hot_location loc
            { kind := HotLocationKind.tracing, tracecompilation_errors := 0 }
          Except.ok (Transition.startTracing hlid, mt2, ts)
      | none => Except.ok (Transition.noAction, mt, ts)

/-- `CompilationError` (from `ykrt/src/compile/mod.rs`, shape pinned by the
`match e` in `mt.rs`). -/
inductive CompilationError where
  | general
  | limitExceeded
  | internalError
  | resourceExhausted
deriving DecidableEq, Repr

/-- The body of the compilation job queued by `MT::queue_root_compile_job`
(mt.rs:282-341), applied to the outcome of `compiler.root_compile`.  On
success the compiled trace (id `ctr`) is registered and the hot location
moves to `Compiled`; on failure `tracecompilation_error` is consulted and
the hot location moves to `DontTrace` or `Counting(0)`.  The `ykd` build's
panic on `InternalError` happens after the kind update and is not part of
the release configuration modelled here; logging has no modelled effect. -/
def MT.root_compile_job (mt : MT) (hlid : Nat) (outcome : Except CompilationError Nat) :
    Except RtPanic MT :=
  match outcome with
  | Except.ok ctr =>
    let mt1 := { mt with compiled_traces := (ctr, ctr) :: mt.compiled_traces }
    if (mt1.hls hlid).kind ≠ HotLocationKind.compiling then Except.error RtPanic.assertFail
    else Except.ok (mt1.setHlKind hlid (HotLocationKind.compiled ctr))
  | Except.error _ =>
    if (mt.hls hlid).kind ≠ HotLocationKind.compiling then Except.error RtPanic.assertFail
    else
      let (hl', tf) := tracecompilation_error (mt.hls hlid) mt.trace_failure_threshold
      match tf with
      | TraceFailed.dontTrace =>
        Except.ok (mt.setHl hlid { hl' with kind := HotLocationKind.dontTrace })
      | TraceFailed.keepTrying =>
        Except.ok (mt.setHl hlid { hl' with kind := HotLocationKind.counting 0 })

/-- Iterated calls to `MT::transition_control_point` from one thread, with
a fixed location and frame address (the shape of the interpreter's
dispatch loop); stops at the first panic. -/
def MT.tcp_iter (sc2 : Nat → Bool) (loc frameaddr : Nat) :
    Nat → MT → List MTThreadState → Except RtPanic (MT × List MTThreadState)
  | 0, mt, ts => Except.ok (mt, ts)
  | n + 1, mt, ts =>
    match MT.transition_control_point sc2 mt ts loc frameaddr with
    | Except.ok (_, mt', ts') => MT.tcp_iter sc2 loc frameaddr n mt' ts'
    | Except.error e => Except.error e

/-- The state of `mt` after `i` iterations of the cold-location counting
loop at location `loc`. -/
def mt_at (mt : MT) (loc : Nat) : Nat → MT
  | 0 => mt
  | i + 1 => { mt with locs := updf mt.locs loc (LocInner.counter (i + 1)) }

/-- A plain `MT` state used to instantiate witnesses: the default
thresholds of `mt.rs`, every location cold with count 0, no workers. -/
def mt_base : MT where
  shutdown := false
  hot_threshold := 131
  sidetrace_threshold := 5
  trace_failure_threshold := 5
  locs := fun _ => LocInner.counter 0
  hls := fun _ => { kind := HotLocationKind.counting 0, tracecompilation_errors := 0 }
  next_hl := 0
  compiled_traces := []
  stats_output_count := 0
  active_worker_threads := []

/-- An `MT` state whose hot location 0 is in the `Compiling` state with two
recorded trace-compilation errors. -/
def mt_hl_compiling : MT :=
  { mt_base with
    hls := updf mt_base.hls 0
      { kind := HotLocationKind.compiling, tracecompilation_errors := 2 } }

/-- An `MT` state for exercising the inner-loop path: location 5 has been
upgraded to hot location 2 (kind `Counting(7)`), and hot location 1 is the
one the current thread is tracing (kind `Tracing`). -/
def mt_c2 : MT :=
  { mt_base with
    locs := updf mt_base.locs 5 (LocInner.hot 2)
    hls := updf
      (updf mt_base.hls 1 { kind := HotLocationKind.tracing, tracecompilation_errors := 0 })
      2 { kind := HotLocationKind.counting 7, tracecompilation_errors := 0 } }

/-- A thread-state stack that is tracing hot location 1, started at frame
address 100, and has already seen hot location 2 at control-point index 3. -/
def ts_c2 : List MTThreadState :=
  [MTThreadState.tracing 1 100 [(2, 3)] 5 [] [], MTThreadState.interpreting]

/-! ## The stopgap interpreter (`internal_ws/yksg/src/lib.rs`) -/

/-- `ykpack::UnsignedIntTy`, as far as `read_int` distinguishes widths. -/
inductive UnsignedIntTy where
  | usize
  | u8
  | u16
  | u32
  | u64
  | u128
deriving DecidableEq, Repr

/-- `ykpack::TyKind`, as far as `read_int` inspects it. -/
inductive TyKind where
  | unsignedInt (t : UnsignedIntTy)
  | signedInt
  | bool
  | other
deriving DecidableEq, Repr

/-- `ykpack::UnsignedInt`: an unsigned integer constant. -/
inductive UnsignedInt where
  | u8 (v : Nat)
  | usize (v : Nat)
  | otherWidth
deriving DecidableEq, Repr

/-- `ykpack::ConstantInt`. -/
inductive ConstantInt where
  | unsignedInt (ui : UnsignedInt)
  | signedInt
deriving DecidableEq, Repr

/-- `ykpack::Constant`, as far as the stopgap interpreter reads it. -/
inductive SgConstant where
  | int (ci : ConstantInt)
  | bool (b : Bool)
  | otherConst
deriving DecidableEq, Repr

/-- The `ptr` component of `IRPlace::Indirect`: a local plus an offset. -/
structure IRPtr where
  lcl : Nat
  off : Int
deriving DecidableEq, Repr

/-- `ykpack::IRPlace` as used by `yksg` (`Val`, `Indirect` and `Const`;
anything else is `unreachable!()` in `iplace_to_ptr`).  `ty` is a type
identifier resolved through the SIR type table.  A `Val`'s offset passes
through `usize::try_from` in the source and so is a `Nat` here; `Indirect`
offsets pass through `isize::try_from` and are `Int`. -/
inductive IRPlace where
  | val (lcl : Nat) (off : Nat) (ty : Nat)
  | indirect (ptr : IRPtr) (off : Int) (ty : Nat)
  | constPlace (val : SgConstant) (ty : Nat)
  | otherPlace
deriving DecidableEq, Repr

/-- `IRPlace::ty()`. -/
def IRPlace.ty : IRPlace → Nat
  | IRPlace.val _ _ ty => ty
  | IRPlace.indirect _ _ ty => ty
  | IRPlace.constPlace _ ty => ty
  | IRPlace.otherPlace => 0

/-- Panics of the embedded stopgap interpreter. -/
inductive SgPanic where
  | todoSite
  | unreachableSite
  | indexFail
  | unwrapFail
deriving DecidableEq, Repr

/-- `LocalMem`, minus the allocation bookkeeping: the base address of the
frame's locals block and the per-local offsets.  Addresses are `Int` (the
source does `isize` pointer arithmetic). -/
structure LocalMem where
  locals : Int
  offsets : List Nat
deriving DecidableEq, Repr

/-- `LocalMem::local_ptr`: `self.locals.add(self.offsets[local])`; the
index panics when the local has no offset entry. -/
def LocalMem.local_ptr (lm : LocalMem) (lcl : Nat) : Except SgPanic Int :=
  match lm.offsets.get? lcl with
  | some o => Except.ok (lm.locals + o)
  | none => Except.error SgPanic.indexFail

/-- Read `n` bytes little-endian from byte memory `mem` at `addr` (used
for the `std::ptr::read::<*mut u8>` pointer load in `iplace_to_ptr`). -/
def read_le (mem : Int → Nat) (addr : Int) : Nat → Nat
  | 0 => 0
  | n + 1 => mem addr + 256 * read_le mem (addr + 1) n

/-- `LocalMem::iplace_to_ptr` (yksg lib.rs:122-146): compute the address of
an `IRPlace`, dereferencing through memory for `Indirect`. -/
def LocalMem.iplace_to_ptr (lm : LocalMem) (mem : Int → Nat) :
    IRPlace → Except SgPanic Int
  | IRPlace.val lcl off _ => do
    let p ← lm.local_ptr lcl
    Except.ok (p + off)
  | IRPlace.indirect ptr off _ => do
    let p ← lm.local_ptr ptr.lcl
    let pv : Int := read_le mem p 8
    Except.ok (pv + ptr.off + off)
  | _ => Except.error SgPanic.unreachableSite

/-- `StopgapInterpreter::read_int` (yksg lib.rs:390-418): read the integer
discriminant behind an `IRPlace`.  `sir_ty` is the SIR type table
(`SIR.ty(..).kind`); `mem` is byte memory.  Only `U8` constants, and `U8`
or `Bool` loads, are implemented; the rest are `todo!()` or
`unreachable!()` in the source. -/
def read_int (sir_ty : Nat → TyKind) (mem : Int → Nat) (lm : LocalMem) (src : IRPlace) :
    Except SgPanic Nat :=
  match src with
  | IRPlace.constPlace v _ =>
    match v with
    | SgConstant.int (ConstantInt.unsignedInt (UnsignedInt.u8 n)) => Except.ok n
    | SgConstant.int (ConstantInt.unsignedInt _) => Except.error SgPanic.todoSite
    | SgConstant.int ConstantInt.signedInt => Except.error SgPanic.todoSite
    | _ => Except.error SgPanic.todoSite
  | _ => do
    let ptr ← lm.iplace_to_ptr mem src
    match sir_ty src.ty with
    | TyKind.unsignedInt UnsignedIntTy.u8 => Except.ok (mem ptr)
    | TyKind.unsignedInt _ => Except.error SgPanic.todoSite
    | TyKind.signedInt => Except.error SgPanic.unreachableSite
    | TyKind.bool => Except.ok (mem ptr)
    | TyKind.other => Except.error SgPanic.unreachableSite

/-- A stack frame of the stopgap interpreter (`StackFrame`): the locals
block, the current basic-block index and the body identifier. -/
structure StackFrame where
  mem : LocalMem
  bbidx : Nat
  body : Nat
deriving DecidableEq, Repr

/-- The scan of the `SwitchInt` arm (yksg lib.rs:364-370): starting from
`bbidx = otherwise_bb`, walk `values` in order; the first `v` equal to
`val` selects `target_bbs[i]` (whose indexing panics when `target_bbs` is
shorter than `values` up to that point) and breaks. -/
def switch_int_find (val : Nat) (target_bbs : List Nat) (otherwise_bb : Nat) :
    Nat → List Nat → Except SgPanic Nat
  | _, [] => Except.ok otherwise_bb
  | i, v :: vs =>
    if val = v then
      match target_bbs.get? i with
      | some t => Except.ok t
      | none => Except.error SgPanic.indexFail
    else
      switch_int_find val target_bbs otherwise_bb (i + 1) vs

/-- The `Terminator::SwitchInt` arm of `StopgapInterpreter::terminator`
(yksg lib.rs:356-371).  The frame stack is a list with the most recent
frame at the head (the source's `frames.last_mut()`).  The discriminant is
read with `read_int` from the current frame's locals, then the successor
block index is selected. -/
def terminator_switch_int (sir_ty : Nat → TyKind) (mem : Int → Nat)
    (frames : List StackFrame) (discr : IRPlace) (values : List Nat)
    (target_bbs : List Nat) (otherwise_bb : Nat) :
    Except SgPanic (List StackFrame) :=
  match frames with
  | [] => Except.error SgPanic.unwrapFail
  | frame :: rest => do
    let val ← read_int sir_ty mem frame.mem discr
    let bb ← switch_int_find val target_bbs otherwise_bb 0 values
    Except.ok ({ frame with bbidx := bb } :: rest)

/-- A SIR type table in which every type is `u8`. -/
def sir_ty_w : Nat → TyKind := fun _ => TyKind.unsignedInt UnsignedIntTy.u8

/-- A byte memory holding 7 at address 40 and 0 elsewhere. -/
def mem_w : Int → Nat := fun a => if a = 40 then 7 else 0

/-- A stopgap frame whose locals block is at address 40 with a single
local at offset 0. -/
def frame_w : StackFrame :=
  { mem := { locals := 40, offsets := [0] }, bbidx := 0, body := 0 }

/-! ## The linear-scan register allocator (`lsregalloc.rs`): spill state -/

/-- `RegExtension` (lsregalloc.rs): what is known of the bits above a
value's width within a 64-bit register. -/
inductive RegExtension where
  | undefined
  | zeroExtended
  | signExtended
deriving DecidableEq, Repr

/-- `RegState` (lsregalloc.rs): what a physical register currently holds. -/
inductive RegState where
  | reserved
  | empty
  | fromConst (cidx : Nat) (ext : RegExtension)
  | fromInst (iidx : Nat) (ext : RegExtension)
deriving DecidableEq, Repr

/-- `SpillState` (lsregalloc.rs): where on the stack an instruction's value
has been spilled.  Offsets are the source's `i32`. -/
inductive SpillState where
  | empty
  | stack (off : Int)
  | direct (off : Int)
  | constInt (bits : Nat) (v : Nat)
deriving DecidableEq, Repr

/-- Panics of the embedded register allocator.  `debugAssertFail` stands
for a violated `debug_assert!` (the function's stated contract). -/
inductive RAPanic where
  | unreachableSite
  | todoSite
  | debugAssertFail
  | assertFail
deriving DecidableEq, Repr

/-- Modelled from the spec: `AbstractStack` (`codegen/abs_stack.rs` is not
part of the source tree).  Per §4.3.4 spill slots "are allocated on an
abstract stack aligned to the value's width": `align` rounds the stack
size up to a multiple of the requested alignment, `grow` extends the stack
and yields the new offset. -/
structure AbstractStack where
  size : Nat
deriving DecidableEq, Repr

def AbstractStack.align (s : AbstractStack) (n : Nat) : AbstractStack :=
  if n = 0 then s else { size := ((s.size + n - 1) / n) * n }

def AbstractStack.grow (s : AbstractStack) (n : Nat) : AbstractStack × Nat :=
  ({ size := s.size + n }, s.size + n)

/-- The collaborators of the spill routines: the reverse analyser's
liveness answer (`rev_an.is_inst_var_still_used_after`) and the module's
width queries (`inst.def_bitw`, `inst.def_byte_size`), per instruction
index. -/
structure RAEnv where
  still_used_after : Nat → Nat → Bool
  def_bitw : Nat → Nat
  def_byte_size : Nat → Nat

/-- The fields of `LSRegAlloc` that the spill routines read or write.
Register states and the spills table are total maps from register code /
instruction index. -/
structure LSRegAlloc where
  gp_reg_states : Nat → RegState
  fp_reg_states : Nat → RegState
  spills : Nat → SpillState
  stack : AbstractStack

/-- A store instruction emitted through the assembler handle, recorded as
(stack offset, bit width). -/
abbrev StoreEmit := Int × Nat

/-- `LSRegAlloc::spill_gp_if_not_already` (lsregalloc.rs:988-1023): spill
the value in `reg` iff it comes from an instruction, is still used after
`cur_iidx`, and is not already spilled.  Returns the new allocator state
and the list of emitted stores.  (The extension-alignment moves around the
1-bit store are not stores and are not recorded.) -/
def spill_gp_if_not_already (env : RAEnv) (ra : LSRegAlloc) (cur_iidx reg : Nat) :
    Except RAPanic (LSRegAlloc × List StoreEmit) :=
  match ra.gp_reg_states reg with
  | RegState.reserved => Except.error RAPanic.unreachableSite
  | RegState.empty => Except.ok (ra, [])
  | RegState.fromConst _ _ => Except.ok (ra, [])
  | RegState.fromInst query_iidx _ =>
    if env.still_used_after cur_iidx query_iidx = true ∧
        ra.spills query_iidx = SpillState.empty then
      let bitw := env.def_bitw query_iidx
      let bytew := env.def_byte_size query_iidx
      let st1 := ra.stack.align bytew
      let (st2, frame_off) := st1.grow bytew
      let off : Int := frame_off
      if bitw = 1 ∨ bitw = 8 ∨ bitw = 16 ∨ bitw = 32 ∨ bitw = 64 then
        Except.ok ({ ra with
          stack := st2
          spills := updf ra.spills query_iidx (SpillState.stack off) }, [(off, bitw)])
      else Except.error RAPanic.unreachableSite
    else Except.ok (ra, [])

/-- `LSRegAlloc::spill_fp_if_not_already` (lsregalloc.rs:1516-1537); note
the floating-point variant has no liveness test, only the
already-spilled test. -/
def spill_fp_if_not_already (env : RAEnv) (ra : LSRegAlloc) (reg : Nat) :
    Except RAPanic (LSRegAlloc × List StoreEmit) :=
  match ra.fp_reg_states reg with
  | RegState.reserved => Except.ok (ra, [])
  | RegState.empty => Except.ok (ra, [])
  | RegState.fromConst _ _ => Except.ok (ra, [])
  | RegState.fromInst iidx _ =>
    if ra.spills iidx = SpillState.empty then
      let bitw := env.def_bitw iidx
      let bytew := env.def_byte_size iidx
      let st1 := ra.stack.align bytew
      let (st2, frame_off) := st1.grow bytew
      let off : Int := frame_off
      if bitw = 32 ∨ bitw = 64 then
        Except.ok ({ ra with
          stack := st2
          spills := updf ra.spills iidx (SpillState.stack off) }, [(off, bitw)])
      else Except.error RAPanic.unreachableSite
    else Except.ok (ra, [])

/-- `LSRegAlloc::force_assign_inst_direct` (lsregalloc.rs:362-365):
`debug_assert_eq!(self.spills[iidx], SpillState::Empty)`, then record the
`Direct` slot. -/
def force_assign_inst_direct (ra : LSRegAlloc) (iidx : Nat) (frame_off : Int) :
    Except RAPanic LSRegAlloc :=
  if ra.spills iidx ≠ SpillState.empty then Except.error RAPanic.debugAssertFail
  else Except.ok { ra with spills := updf ra.spills iidx (SpillState.direct frame_off) }

/-- `LSRegAlloc::force_assign_inst_indirect` (lsregalloc.rs:368-371). -/
def force_assign_inst_indirect (ra : LSRegAlloc) (iidx : Nat) (frame_off : Int) :
    Except RAPanic LSRegAlloc :=
  if ra.spills iidx ≠ SpillState.empty then Except.error RAPanic.debugAssertFail
  else Except.ok { ra with spills := updf ra.spills iidx (SpillState.stack frame_off) }

/-- `LSRegAlloc::force_assign_and_spill_inst_gp_reg` (lsregalloc.rs:
325-350): asserts the instruction has no spill yet, grows the stack and
stores. -/
def force_assign_and_spill_inst_gp_reg (env : RAEnv) (ra : LSRegAlloc) (iidx reg : Nat) :
    Except RAPanic (LSRegAlloc × List StoreEmit) :=
  if ra.spills iidx ≠ SpillState.empty then Except.error RAPanic.debugAssertFail
  else
    let bytew := env.def_byte_size iidx
    let st1 := ra.stack.align bytew
    let (st2, frame_off) := st1.grow bytew
    let off : Int := frame_off
    let bitw := env.def_bitw iidx
    if bitw = 1 then
      if ra.gp_reg_states reg ≠ RegState.empty then Except.error RAPanic.assertFail
      else
        Except.ok ({ ra with
          stack := st2
          spills := updf ra.spills iidx (SpillState.stack off) }, [(off, bitw)])
    else if bitw = 8 ∨ bitw = 16 ∨ bitw = 32 ∨ bitw = 64 then
      Except.ok ({ ra with
        stack := st2
        spills := updf ra.spills iidx (SpillState.stack off) }, [(off, bitw)])
    else Except.error RAPanic.todoSite

/-- One spill-related operation on the allocator state, covering every
routine of `lsregalloc.rs` that writes a spill slot on the spilling path
(explicit constant aliasing via `assign_const` is register-entry setup,
not a spill, and is outside this step relation). -/
inductive RAOp where
  | spillGp (cur_iidx reg : Nat)
  | spillFp (reg : Nat)
  | forceDirect (iidx : Nat) (frame_off : Int)
  | forceIndirect (iidx : Nat) (frame_off : Int)
  | forceSpillGp (iidx reg : Nat)
deriving DecidableEq, Repr

def ra_step (env : RAEnv) (ra : LSRegAlloc) : RAOp → Except RAPanic LSRegAlloc
  | RAOp.spillGp cur_iidx reg =>
    match spill_gp_if_not_already env ra cur_iidx reg with
    | Except.ok (ra', _) => Except.ok ra'
    | Except.error e => Except.error e
  | RAOp.spillFp reg =>
    match spill_fp_if_not_already env ra reg with
    | Except.ok (ra', _) => Except.ok ra'
    | Except.error e => Except.error e
  | RAOp.forceDirect iidx off => force_assign_inst_direct ra iidx off
  | RAOp.forceIndirect iidx off => force_assign_inst_indirect ra iidx off
  | RAOp.forceSpillGp iidx reg =>
    match force_assign_and_spill_inst_gp_reg env ra iidx reg with
    | Except.ok (ra', _) => Except.ok ra'
    | Except.error e => Except.error e

def ra_run (env : RAEnv) (ra : LSRegAlloc) : List RAOp → Except RAPanic LSRegAlloc
  | [] => Except.ok ra
  | op :: ops =>
    match ra_step env ra op with
    | Except.ok ra' => ra_run env ra' ops
    | Except.error e => Except.error e

/-- A reverse-analysis environment in which every value is still used and
every value is 64 bits / 8 bytes wide. -/
def ra_env_w : RAEnv :=
  { still_used_after := fun _ _ => true, def_bitw := fun _ => 64,
    def_byte_size := fun _ => 8 }

/-- An allocator state where GP register 3 holds instruction 2's value and
instruction 2 is already spilled to stack offset 8. -/
def ra_w : LSRegAlloc :=
  { gp_reg_states := updf (fun _ => RegState.empty) 3 (RegState.fromInst 2 RegExtension.undefined)
    fp_reg_states := fun _ => RegState.empty
    spills := updf (fun _ => SpillState.empty) 2 (SpillState.stack 8)
    stack := { size := 16 } }

/-! ## The PT trace decoder (`hwtracer/src/pt/ykpt/mod.rs`) -/

/-- Modelled from the spec: packet kinds (`ykpt/packets.rs` is not part of
the source tree; the kinds and their predicates are pinned by the uses in
`ykpt/mod.rs` and §4.2.2 of the spec). -/
inductive PacketKind where
  | psb
  | psbend
  | tip
  | tipPge
  | tipPgd
  | fup
  | tnt
  | modeExec
  | modeTsx
  | ovf
  | pad
deriving DecidableEq, Repr

/-- Modelled from the spec: `PacketKind::encodes_target_ip` -- the kinds
that may carry a target-IP update (TIP, TIP.PGE, TIP.PGD, FUP). -/
def PacketKind.encodes_target_ip : PacketKind → Bool
  | PacketKind.tip => true
  | PacketKind.tipPge => true
  | PacketKind.tipPgd => true
  | PacketKind.fup => true
  | _ => false

/-- Modelled from the spec: `PacketKind::is_mode` -- the `MODE.*` kinds. -/
def PacketKind.is_mode : PacketKind → Bool
  | PacketKind.modeExec => true
  | PacketKind.modeTsx => true
  | _ => false

/-- Modelled from the spec: a decoded packet, with its optional target-IP
update (`Packet::target_ip`; `none` also covers out-of-context TIPs) and
its optional taken/not-taken bits (`Packet::tnts`). -/
structure Packet where
  kind : PacketKind
  target_ip : Option Nat
  tnt_bits : Option (List Bool)
deriving DecidableEq, Repr

/-- `ObjLoc` (ykpt/mod.rs:128-133): where in the traced binary the decoder
currently is. -/
inductive ObjLoc where
  | mainObj (v : Nat)
  | otherObjOrUnknown (v : Option Nat)
deriving DecidableEq, Repr

/-- `CompRetAddr` (ykpt/mod.rs:166-177): an entry of the compressed-return
stack. -/
inductive CompRetAddr where
  | vaddr (v : Nat)
  | afterCall (v : Nat)
deriving DecidableEq, Repr

/-- `PT_MAX_COMPRETS` (ykpt/mod.rs:85): the hardware bound on the
compressed-return stack. -/
def PT_MAX_COMPRETS : Nat := 64

/-- The errors and panics of the embedded decoder (`IteratorError` plus
the panic sites and the fuel bound of the embedding). -/
inductive IterErr where
  | noMorePackets
  | noSuchVAddr
  | bufferOverflow
  | traceInterrupted
  | outOfFuel
  | assertFail
  | todoSite
  | panicSite
  | unwrapFail
  | unreachableCompRets
deriving DecidableEq, Repr

/-- `CompressedReturns::push` (ykpt/mod.rs:201-211).  The `VecDeque` is a
list with the oldest entry at the head; `push` appends at the back,
evicting the oldest entry when the stack already holds `PT_MAX_COMPRETS`
entries.  The entry `assert!(self.rets.len() <= PT_MAX_COMPRETS)` is the
error case. -/
def CompressedReturns.push (rets : List CompRetAddr) (ret : CompRetAddr) :
    Except IterErr (List CompRetAddr) :=
  if rets.length > PT_MAX_COMPRETS then Except.error IterErr.assertFail
  else
    let rets1 := if rets.length = PT_MAX_COMPRETS then rets.drop 1 else rets
    Except.ok (rets1 ++ [ret])

/-- `CompressedReturns::pop` (ykpt/mod.rs:213-215): pop from the back. -/
def CompressedReturns.pop (rets : List CompRetAddr) :
    Option CompRetAddr × List CompRetAddr :=
  (rets.getLast?, rets.dropLast)

/-- The environment the decoder reads but never writes: the
virtual-address-to-object map (`ykaddr::addr::vaddr_to_obj_and_off`,
objects as numeric ids), the id of the main binary (`SELF_BIN_PATH`), and
the block map (`LLVM_BLOCK_MAP`, as the covering vaddr range). -/
structure DecoderEnv where
  vaddr_obj : Nat → Option Nat
  self_bin : Nat
  blockmap : Nat → Option (Nat × Nat)

/-- The mutable state of `YkPTBlockIterator`: the remaining packet stream,
the current location, the TNT queue (head = oldest), the compressed-return
stack and the unbound-MODE flag. -/
structure YkPTState where
  parser : List Packet
  cur_loc : ObjLoc
  tnts : List Bool
  comprets : List CompRetAddr
  unbound_modes : Bool
deriving DecidableEq, Repr

/-- The search loop of `skip_psb_plus` (ykpt/mod.rs:743-759) over the raw
packet list: skip up to and including the next `PSBEND`, then return the
packet after it.  Running out of packets during the search is the
source's `panic!`; running out right after the `PSBEND` is
`Err(NoMorePackets)`. -/
def skip_psb_plus_go : List Packet → Except IterErr (Packet × List Packet)
  | [] => Except.error IterErr.panicSite
  | p :: rest =>
    if p.kind = PacketKind.psbend then
      match rest with
      | [] => Except.error IterErr.noMorePackets
      | q :: qr => Except.ok (q, qr)
    else skip_psb_plus_go rest

def skip_psb_plus (st : YkPTState) : Except IterErr (Packet × YkPTState) :=
  match skip_psb_plus_go st.parser with
  | Except.ok (p, rest) => Except.ok (p, { st with parser := rest })
  | Except.error e => Except.error e

mutual

/-- `YkPTBlockIterator::packet` (ykpt/mod.rs:762-864): fetch the next
packet and update the iterator state.  `fuel` bounds the mutual recursion
with `seek_tnt_or_tipF` (each nested call consumes at least one packet, so
any fuel of at least `parser.length + 1` is enough). -/
def packetF (env : DecoderEnv) : Nat → YkPTState → Except IterErr (Packet × YkPTState)
  | 0, _ => Except.error IterErr.outOfFuel
  | fuel + 1, st =>
    match st.parser with
    | [] => Except.error IterErr.noMorePackets
    | pkt0 :: rest =>
      let st := { st with parser := rest }
      if pkt0.kind = PacketKind.ovf then Except.error IterErr.bufferOverflow
      else do
        -- A FUP with no outstanding MODE: asynchronous interruption; only
        -- the [FUP, TIP.PGD, TIP.PGE] recovery shape is supported.
        let (pkt, st) ←
          if pkt0.kind = PacketKind.fup ∧ st.unbound_modes = false then do
            let (pkt1, st1) ← seek_tnt_or_tipF env fuel false false st
            if pkt1.kind ≠ PacketKind.tipPgd then Except.error IterErr.traceInterrupted
            else do
              let (pkt2, st2) ← seek_tnt_or_tipF env fuel true false st1
              if pkt2.kind ≠ PacketKind.tipPge then Except.error IterErr.traceInterrupted
              else
                match st2.parser with
                | [] => Except.error IterErr.noMorePackets
                | q :: qr => Except.ok (q, { st2 with parser := qr })
          else Except.ok (pkt0, st)
        -- PSB: reset cur_loc and the compressed-return stack; the TNT
        -- queue must already be empty; skip the PSB+ sequence.
        let (pkt, st) ←
          if pkt.kind = PacketKind.psb then
            let st := { st with cur_loc := ObjLoc.otherObjOrUnknown none, comprets := [] }
            if st.tnts ≠ [] then Except.error IterErr.assertFail
            else do
              let (pkt', st') ← skip_psb_plus st
              if pkt'.kind = PacketKind.psb then Except.error IterErr.todoSite
              else Except.ok (pkt', st')
          else Except.ok (pkt, st)
        let st := if pkt.kind.is_mode then { st with unbound_modes := true } else st
        let st :=
          if pkt.kind.encodes_target_ip ∧ st.unbound_modes = true then
            { st with unbound_modes := false }
          else st
        let st ←
          match pkt.target_ip with
          | some vaddr =>
            match env.vaddr_obj vaddr with
            | none => Except.error IterErr.noSuchVAddr
            | some obj =>
              Except.ok { st with cur_loc :=
                if obj = env.self_bin then ObjLoc.mainObj vaddr
                else ObjLoc.otherObjOrUnknown (some vaddr) }
          | none => Except.ok st
        let st :=
          match pkt.tnt_bits with
          | some bits => { st with tnts := st.tnts ++ bits }
          | none => st
        Except.ok (pkt, st)

/-- `YkPTBlockIterator::seek_tnt_or_tip` (ykpt/mod.rs:728-739): decode
packets until one carries TNT bits or a (possibly skipped) TIP update. -/
def seek_tnt_or_tipF (env : DecoderEnv) :
    Nat → Bool → Bool → YkPTState → Except IterErr (Packet × YkPTState)
  | 0, _, _, _ => Except.error IterErr.outOfFuel
  | fuel + 1, skip_ooc, skip_pgd, st => do
    let (pkt, st1) ← packetF env fuel st
    if pkt.tnt_bits.isSome = true ∨
        (pkt.kind.encodes_target_ip = true ∧
          (pkt.kind ≠ PacketKind.tipPgd ∨ skip_pgd = false) ∧
          (pkt.target_ip.isSome = true ∨ skip_ooc = false)) then
      Except.ok (pkt, st1)
    else
      seek_tnt_or_tipF env fuel skip_ooc skip_pgd st1

end

/-- `YkPTBlockIterator::seek_tnt` (ykpt/mod.rs:686-693). -/
def seek_tnt (env : DecoderEnv) : Nat → YkPTState → Except IterErr YkPTState
  | 0, _ => Except.error IterErr.outOfFuel
  | fuel + 1, st => do
    let (pkt, st1) ← packetF env fuel st
    if pkt.tnt_bits.isSome = true then Except.ok st1
    else seek_tnt env fuel st1

/-- `YkPTBlockIterator::seek_tip` (ykpt/mod.rs:702-713). -/
def seek_tip (env : DecoderEnv) : Nat → YkPTState → Except IterErr YkPTState
  | 0, _ => Except.error IterErr.outOfFuel
  | fuel + 1, st => do
    let (pkt, st1) ← packetF env fuel st
    if pkt.kind.encodes_target_ip = true ∧ pkt.kind ≠ PacketKind.tipPgd then Except.ok st1
    else seek_tip env fuel st1

/-- `YkPTBlockIterator::is_return_compressed` (ykpt/mod.rs:493-514): a
return is classified as compressed iff a TNT decision is pending (the TNT
queue is non-empty, or the next TNT-or-TIP packet carries TNT bits).  A
compressed classification then hits
`unreachable!("compressed returns are disabled in collect.c")`. -/
def is_return_compressed (env : DecoderEnv) (fuel : Nat) (st : YkPTState) :
    Except IterErr (Bool × YkPTState) := do
  let (compressed, st) ←
    if st.tnts ≠ [] then Except.ok (true, st)
    else do
      let (pkt, st1) ← seek_tnt_or_tipF env fuel true true st
      Except.ok (pkt.tnt_bits.isSome, st1)
  if compressed = true then Except.error IterErr.unreachableCompRets
  else Except.ok (compressed, st)

/-- `Block` (hwtracer/src/block.rs): a known inclusive virtual-address
range or an unknown block. -/
inductive Block where
  | vAddrRange (first_inst last_inst : Nat)
  | unknown
deriving DecidableEq, Repr

/-- `YkPTBlockIterator::lookup_block_by_vaddr` (ykpt/mod.rs:269-275) via
`lookup_blockmap_entry`: the covering blockmap range, else `Unknown`. -/
def lookup_block_by_vaddr (env : DecoderEnv) (vaddr : Nat) : Block :=
  match env.blockmap vaddr with
  | some (s, e) => Block.vAddrRange s e
  | none => Block.unknown

/-- `SuccessorKind` (from `hwtracer/src/llvm_blockmap.rs`, shape pinned by
the `match ent.successor()` in `follow_blockmap_successor`). -/
inductive SuccessorKind where
  | unconditional (target : Option Nat)
  | conditional (num_cond_brs : Nat) (taken_target : Nat) (not_taken_target : Option Nat)
  | ret
  | dynamic
deriving DecidableEq, Repr

/-- A blockmap entry, as far as `follow_blockmap_successor` reads it. -/
structure BlockMapEntry where
  successor : SuccessorKind
deriving DecidableEq, Repr

/-- The loop of `follow_conditional_successor` (ykpt/mod.rs:353-362):
consume up to `n` TNT decisions (seeking a TNT packet when the queue is
empty); the first taken decision wins. -/
def fcs_loop (env : DecoderEnv) (fuel : Nat) :
    Nat → YkPTState → Except IterErr (Bool × YkPTState)
  | 0, st => Except.ok (false, st)
  | n + 1, st => do
    let st ← if st.tnts = [] then seek_tnt env fuel st else Except.ok st
    match st.tnts with
    | [] => Except.error IterErr.unwrapFail
    | b :: bs =>
      let st := { st with tnts := bs }
      if b = true then Except.ok (true, st)
      else fcs_loop env fuel n st

/-- `YkPTBlockIterator::follow_conditional_successor` (ykpt/mod.rs:
341-371). -/
def follow_conditional_successor (env : DecoderEnv) (fuel : Nat) (num_cond_brs : Nat)
    (taken_target : Nat) (not_taken_target : Option Nat) (st : YkPTState) :
    Except IterErr (Nat × YkPTState) :=
  if num_cond_brs = 0 then Except.error IterErr.assertFail
  else if num_cond_brs > 2 then Except.error IterErr.assertFail
  else do
    let (taken, st) ← fcs_loop env fuel num_cond_brs st
    if taken = true then Except.ok (taken_target, st)
    else
      match not_taken_target with
      | some ntt => Except.ok (ntt, st)
      | none => Except.error IterErr.todoSite

/-- `YkPTBlockIterator::follow_blockmap_successor` (ykpt/mod.rs:374-444).
On a `Return` successor, a compressed return pops the compressed-return
stack; an uncompressed return relies on the TIP update that
`is_return_compressed` has already applied to `cur_loc`. -/
def follow_blockmap_successor (env : DecoderEnv) (fuel : Nat) (ent : BlockMapEntry)
    (st : YkPTState) : Except IterErr (Block × YkPTState) :=
  match ent.successor with
  | SuccessorKind.unconditional target =>
    match target with
    | some t =>
      Except.ok (lookup_block_by_vaddr env t, { st with cur_loc := ObjLoc.mainObj t })
    | none => Except.error IterErr.todoSite
  | SuccessorKind.conditional n tt ntt => do
    let (tv, st) ← follow_conditional_successor env fuel n tt ntt st
    Except.ok (lookup_block_by_vaddr env tv, { st with cur_loc := ObjLoc.mainObj tv })
  | SuccessorKind.ret => do
    let (c, st) ← is_return_compressed env fuel st
    if c = true then
      match CompressedReturns.pop st.comprets with
      | (none, _) => Except.error IterErr.unwrapFail
      | (some r, rets') =>
        let st := { st with
          comprets := rets'
          cur_loc :=
            match r with
            | CompRetAddr.afterCall v => ObjLoc.mainObj (v + 1)
            | CompRetAddr.vaddr v => ObjLoc.mainObj v }
        match st.cur_loc with
        | ObjLoc.mainObj vaddr => Except.ok (lookup_block_by_vaddr env (vaddr + 1), st)
        | ObjLoc.otherObjOrUnknown _ => Except.ok (Block.unknown, st)
    else
      match st.cur_loc with
      | ObjLoc.mainObj vaddr => Except.ok (lookup_block_by_vaddr env vaddr, st)
      | ObjLoc.otherObjOrUnknown _ => Except.ok (Block.unknown, st)
  | SuccessorKind.dynamic => do
    let st ← seek_tip env fuel st
    match st.cur_loc with
    | ObjLoc.mainObj vaddr => Except.ok (lookup_block_by_vaddr env vaddr, st)
    | ObjLoc.otherObjOrUnknown _ => Except.ok (Block.unknown, st)

/-- The operations through which a decoder run mutates its
compressed-return stack: `CompressedReturns::push` (at calls), the
back-pop at compressed returns, and the clear on a `PSB` packet. -/
inductive CROp where
  | push (r : CompRetAddr)
  | pop
  | clear
deriving DecidableEq, Repr

def cr_step (rets : List CompRetAddr) : CROp → Except IterErr (List CompRetAddr)
  | CROp.push r => CompressedReturns.push rets r
  | CROp.pop => Except.ok (CompressedReturns.pop rets).2
  | CROp.clear => Except.ok []

/-- A decoder run, projected to its compressed-return stack: any sequence
of push/pop/clear operations starting from the empty stack of
`YkPTBlockIterator::new`. -/
def cr_run : List CompRetAddr → List CROp → Except IterErr (List CompRetAddr)
  | rets, [] => Except.ok rets
  | rets, op :: ops =>
    match cr_step rets op with
    | Except.ok rets' => cr_run rets' ops
    | Except.error e => Except.error e

/-- The decoder environment for the return-compression scenarios: every
virtual address belongs to the main binary (object 0) and only address
800 has a blockmap entry. -/
def env_c4 : DecoderEnv :=
  { vaddr_obj := fun _ => some 0, self_bin := 0,
    blockmap := fun v => if v = 800 then some (800, 810) else none }

/-- A decoder state with a pending TNT decision and a non-empty
compressed-return stack, about to decode a return. -/
def st_c4 : YkPTState :=
  { parser := [], cur_loc := ObjLoc.mainObj 1000, tnts := [true],
    comprets := [CompRetAddr.vaddr 500], unbound_modes := false }

/-- A blockmap entry with a `Return` successor. -/
def ent_ret : BlockMapEntry := { successor := SuccessorKind.ret }

/-- A TIP packet whose target is address 800. -/
def tip_pkt_800 : Packet :=
  { kind := PacketKind.tip, target_ip := some 800, tnt_bits := none }

/-- A decoder state with no pending TNT decision whose next packet is the
TIP update to address 800. -/
def st_c4b : YkPTState :=
  { parser := [tip_pkt_800], cur_loc := ObjLoc.mainObj 1000, tnts := [],
    comprets := [], unbound_modes := false }

/-- `st_c4b` after consuming the TIP packet. -/
def st_c4b1 : YkPTState :=
  { parser := [], cur_loc := ObjLoc.mainObj 800, tnts := [],
    comprets := [], unbound_modes := false }

/-! ## Theorems -/

@[simp] theorem updf_updf_same {α : Type} (f : Nat → α) (k : Nat) (a b : α) :
    updf (updf f k a) k b = updf f k b := by
  funext i
  by_cases h : i = k <;> simp [updf, h]

theorem mt_at_locs (mt : MT) (loc : Nat) (hloc : mt.locs loc = LocInner.counter 0) :
    ∀ i, (mt_at mt loc i).locs loc = LocInner.counter i
  | 0 => hloc
  | _ + 1 => by simp [mt_at]

theorem mt_at_succ (mt : MT) (loc : Nat) (i : Nat) :
    { mt_at mt loc i with
      locs := updf (mt_at mt loc i).locs loc (LocInner.counter (i + 1)) } =
    mt_at mt loc (i + 1) := by
  cases i <;> simp [mt_at]

/-- A single control-point call on a cold location whose counter is still
below the hot threshold: `NoAction`, counter bumped by one. -/
theorem tcp_counter_noaction (sc2 : Nat → Bool) (mt : MT) (ts : List MTThreadState)
    (loc fa i : Nat) (hloc : mt.locs loc = LocInner.counter i)
    (htr : is_tracing ts = false) (hlt : i < mt.hot_threshold) :
    MT.transition_control_point sc2 mt ts loc fa =
      Except.ok (Transition.noAction,
        { mt with locs := updf mt.locs loc (LocInner.counter (i + 1)) }, ts) := by
  have hcond : i + 1 < mt.hot_threshold + 1 := by omega
  simp [MT.transition_control_point, hloc, htr, inc_count, hcond]

/-- A single control-point call on a cold location whose counter has
reached the hot threshold: the location is upgraded to a fresh
`HotLocation` in the `Tracing` state and `StartTracing` is returned. -/
theorem tcp_counter_upgrade (sc2 : Nat → Bool) (mt : MT) (ts : List MTThreadState)
    (loc fa : Nat) (hloc : mt.locs loc = LocInner.counter mt.hot_threshold)
    (htr : is_tracing ts = false) :
    MT.transition_control_point sc2 mt ts loc fa =
      Except.ok (Transition.startTracing mt.next_hl,
        { mt with
          locs := updf mt.locs loc (LocInner.hot mt.next_hl)
          hls := updf mt.hls mt.next_hl
            { kind := HotLocationKind.tracing, tracecompilation_errors := 0 }
          next_hl := mt.next_hl + 1 }, ts) := by
  have hcond : ¬ (mt.hot_threshold + 1 < mt.hot_threshold + 1) := by omega
  simp [MT.transition_control_point, hloc, htr, inc_count, hcond, MT.count_to_hot_location]

/-- Iterating the counting loop `i ≤ H` times from a cold location with
count 0 yields `mt_at mt loc i` without touching the thread state. -/
theorem tcp_iter_counting (sc2 : Nat → Bool) (mt : MT) (ts : List MTThreadState)
    (loc fa : Nat) (hloc : mt.locs loc = LocInner.counter 0)
    (htr : is_tracing ts = false) :
    ∀ i, i ≤ mt.hot_threshold →
      MT.tcp_iter sc2 loc fa i mt ts = Except.ok (mt_at mt loc i, ts) := by
  have key : ∀ i j, i + j ≤ mt.hot_threshold →
      MT.tcp_iter sc2 loc fa j (mt_at mt loc i) ts = Except.ok (mt_at mt loc (i + j), ts) := by
    intro i j
    induction j generalizing i with
    | zero => intro _; simp [MT.tcp_iter]
    | succ j ih =>
      intro hle
      rw [MT.tcp_iter]
      rw [tcp_counter_noaction sc2 (mt_at mt loc i) ts loc fa i
        (mt_at_locs mt loc hloc i) htr (by cases i <;> simp [mt_at] at * <;> omega)]
      rw [mt_at_succ]
      have := ih (i + 1) (by omega)
      rw [show i + (j + 1) = (i + 1) + j by omega]
      exact this
  intro i hi
  have := key 0 i (by omega)
  simpa [mt_at] using this

/-- C1: for a `Location` still in its counter state (count 0) and a thread
that is not tracing, with hot threshold `H`: each of the first `H` calls
to the control point returns `NoAction` and increments the counter by one,
and the `(H+1)`-th call upgrades the `Location` to a `HotLocation` of kind
`Tracing` and returns `StartTracing`. -/
theorem claim_C1_hot_threshold (sc2 : Nat → Bool) (mt : MT) (loc fa : Nat)
    (hloc : mt.locs loc = LocInner.counter 0) :
    (∀ i, i < mt.hot_threshold →
      ∃ mt_i mt_i1,
        MT.tcp_iter sc2 loc fa i mt [MTThreadState.interpreting] =
          Except.ok (mt_i, [MTThreadState.interpreting]) ∧
        mt_i.locs loc = LocInner.counter i ∧
        MT.transition_control_point sc2 mt_i [MTThreadState.interpreting] loc fa =
          Except.ok (Transition.noAction, mt_i1, [MTThreadState.interpreting]) ∧
        mt_i1.locs loc = LocInner.counter (i + 1)) ∧
    (∃ mt_H mt_fin hlid,
        MT.tcp_iter sc2 loc fa mt.hot_threshold mt [MTThreadState.interpreting] =
          Except.ok (mt_H, [MTThreadState.interpreting]) ∧
        mt_H.locs loc = LocInner.counter mt.hot_threshold ∧
        MT.transition_control_point sc2 mt_H [MTThreadState.interpreting] loc fa =
          Except.ok (Transition.startTracing hlid, mt_fin, [MTThreadState.interpreting]) ∧
        mt_fin.locs loc = LocInner.hot hlid ∧
        (mt_fin.hls hlid).kind = HotLocationKind.tracing) := by
  have htr : is_tracing [MTThreadState.interpreting] = false := rfl
  constructor
  · intro i hi
    refine ⟨mt_at mt loc i,
      { mt_at mt loc i with
        locs := updf (mt_at mt loc i).locs loc (LocInner.counter (i + 1)) }, ?_, ?_, ?_, ?_⟩
    · exact tcp_iter_counting sc2 mt _ loc fa hloc htr i (by omega)
    · exact mt_at_locs mt loc hloc i
    · exact tcp_counter_noaction sc2 (mt_at mt loc i) _ loc fa i
        (mt_at_locs mt loc hloc i) htr (by cases i <;> simp [mt_at] at * <;> omega)
    · simp
  · refine ⟨mt_at mt loc mt.hot_threshold, _, (mt_at mt loc mt.hot_threshold).next_hl,
      tcp_iter_counting sc2 mt _ loc fa hloc htr mt.hot_threshold (by omega),
      mt_at_locs mt loc hloc mt.hot_threshold,
      tcp_counter_upgrade sc2 (mt_at mt loc mt.hot_threshold) _ loc fa ?_ htr, ?_, ?_⟩
    · have h2 : (mt_at mt loc mt.hot_threshold).hot_threshold = mt.hot_threshold := by
        cases h : mt.hot_threshold <;> simp [mt_at, h]
      rw [h2]
      exact mt_at_locs mt loc hloc mt.hot_threshold
    · simp
    · simp

theorem claim_C1_witness :
    (∀ i, i < mt_base.hot_threshold →
      ∃ mt_i mt_i1,
        MT.tcp_iter (fun _ => false) 0 7 i mt_base [MTThreadState.interpreting] =
          Except.ok (mt_i, [MTThreadState.interpreting]) ∧
        mt_i.locs 0 = LocInner.counter i ∧
        MT.transition_control_point (fun _ => false) mt_i [MTThreadState.interpreting] 0 7 =
          Except.ok (Transition.noAction, mt_i1, [MTThreadState.interpreting]) ∧
        mt_i1.locs 0 = LocInner.counter (i + 1)) ∧
    (∃ mt_H mt_fin hlid,
        MT.tcp_iter (fun _ => false) 0 7 mt_base.hot_threshold mt_base
            [MTThreadState.interpreting] =
          Except.ok (mt_H, [MTThreadState.interpreting]) ∧
        mt_H.locs 0 = LocInner.counter mt_base.hot_threshold ∧
        MT.transition_control_point (fun _ => false) mt_H [MTThreadState.interpreting] 0 7 =
          Except.ok (Transition.startTracing hlid, mt_fin, [MTThreadState.interpreting]) ∧
        mt_fin.locs 0 = LocInner.hot hlid ∧
        (mt_fin.hls hlid).kind = HotLocationKind.tracing) :=
  claim_C1_hot_threshold (fun _ => false) mt_base 0 7 (by rfl)

theorem mt_shutdown_flag_set (mt : MT) (h : mt.shutdown = true) :
    mt.mt_shutdown = Except.ok mt := by
  simp [MT.mt_shutdown, h]

theorem mt_shutdown_iter_flag_set (mt : MT) (h : mt.shutdown = true) :
    ∀ n, mt.mt_shutdown_iter n = Except.ok mt
  | 0 => rfl
  | n + 1 => by
    rw [MT.mt_shutdown_iter, mt_shutdown_flag_set mt h]
    exact mt_shutdown_iter_flag_set mt h n

/-- C7: calling `MT::shutdown` any number of times performs the shutdown
actions (outputting statistics, joining finished worker threads,
re-raising any worker panic) exactly once: the first call sets the
shutdown flag, performs the statistics output once and drains the worker
handles; every subsequent call (any number of iterations) observes the
flag and returns the state unchanged. -/
theorem claim_C7_shutdown_idempotent (mt : MT) (n : Nat) (hsd : mt.shutdown = false)
    (hnp : mt.active_worker_threads.any (fun h => h.finished && h.panicked) = false) :
    ∃ mt1, mt.mt_shutdown = Except.ok mt1 ∧
      mt1.shutdown = true ∧
      mt1.stats_output_count = mt.stats_output_count + 1 ∧
      mt1.active_worker_threads = [] ∧
      MT.mt_shutdown_iter mt1 n = Except.ok mt1 ∧
      MT.mt_shutdown_iter mt (n + 1) = Except.ok mt1 := by
  have h1 : mt.mt_shutdown = Except.ok
      { mt with shutdown := true, stats_output_count := mt.stats_output_count + 1,
                active_worker_threads := [] } := by
    simp [MT.mt_shutdown, hsd, hnp]
  refine ⟨_, h1, rfl, rfl, rfl, mt_shutdown_iter_flag_set _ rfl n, ?_⟩
  rw [MT.mt_shutdown_iter, h1]
  exact mt_shutdown_iter_flag_set _ rfl n

theorem claim_C7_witness :
    ∃ mt1, mt_base.mt_shutdown = Except.ok mt1 ∧
      mt1.shutdown = true ∧
      mt1.stats_output_count = mt_base.stats_output_count + 1 ∧
      mt1.active_worker_threads = [] ∧
      MT.mt_shutdown_iter mt1 3 = Except.ok mt1 ∧
      MT.mt_shutdown_iter mt_base (3 + 1) = Except.ok mt1 :=
  claim_C7_shutdown_idempotent mt_base 3 rfl rfl

/-- C10: `set_trace_failure_threshold(n)` panics when `n < 1` (that is,
when `n = 0`), storing nothing; for every `n ≥ 1` it stores `n` as the new
trace failure threshold. -/
theorem claim_C10_set_trace_failure_threshold (mt : MT) (n : Nat) :
    (n = 0 → mt.set_trace_failure_threshold n = Except.error RtPanic.thresholdTooSmall) ∧
    (1 ≤ n → mt.set_trace_failure_threshold n =
      Except.ok { mt with trace_failure_threshold := n }) := by
  constructor
  · intro h
    subst h
    simp [MT.set_trace_failure_threshold]
  · intro h
    simp [MT.set_trace_failure_threshold, Nat.not_lt.mpr h]

theorem claim_C10_witness :
    (mt_base.set_trace_failure_threshold 0 = Except.error RtPanic.thresholdTooSmall) ∧
    (mt_base.set_trace_failure_threshold 3 =
      Except.ok { mt_base with trace_failure_threshold := 3 }) :=
  ⟨(claim_C10_set_trace_failure_threshold mt_base 0).1 rfl,
   (claim_C10_set_trace_failure_threshold mt_base 3).2 (by norm_num)⟩

/-- C6: when a root-trace compilation job fails, the job bumps the hot
location's `tracecompilation_errors` counter and leaves its kind as
`DontTrace` when the bumped counter exceeds the failure threshold and as
`Counting(0)` otherwise; the compiled-trace registry is unchanged (no
trace is registered for the location). -/
theorem claim_C6_root_compile_failure (mt : MT) (hlid : Nat) (e : CompilationError)
    (hk : (mt.hls hlid).kind = HotLocationKind.compiling) :
    ∃ mt', MT.root_compile_job mt hlid (Except.error e) = Except.ok mt' ∧
      (mt'.hls hlid).tracecompilation_errors = (mt.hls hlid).tracecompilation_errors + 1 ∧
      ((mt.hls hlid).tracecompilation_errors + 1 > mt.trace_failure_threshold →
        (mt'.hls hlid).kind = HotLocationKind.dontTrace) ∧
      ((mt.hls hlid).tracecompilation_errors + 1 ≤ mt.trace_failure_threshold →
        (mt'.hls hlid).kind = HotLocationKind.counting 0) ∧
      mt'.compiled_traces = mt.compiled_traces := by
  by_cases hthr : (mt.hls hlid).tracecompilation_errors + 1 > mt.trace_failure_threshold
  · refine ⟨mt.setHl hlid
      { kind := HotLocationKind.dontTrace,
        tracecompilation_errors := (mt.hls hlid).tracecompilation_errors + 1 }, ?_, ?_, ?_, ?_, ?_⟩
    · simp [MT.root_compile_job, tracecompilation_error, hk, hthr]
    · simp [MT.setHl, updf]
    · intro _; simp [MT.setHl, updf]
    · intro hle; omega
    · simp [MT.setHl]
  · refine ⟨mt.setHl hlid
      { kind := HotLocationKind.counting 0,
        tracecompilation_errors := (mt.hls hlid).tracecompilation_errors + 1 }, ?_, ?_, ?_, ?_, ?_⟩
    · simp [MT.root_compile_job, tracecompilation_error, hk, hthr]
    · simp [MT.setHl, updf]
    · intro hgt; omega
    · intro _; simp [MT.setHl, updf]
    · simp [MT.setHl]

theorem claim_C6_witness :
    (mt_hl_compiling.hls 0).kind = HotLocationKind.compiling ∧
    ∃ mt', MT.root_compile_job mt_hl_compiling 0 (Except.error CompilationError.general) =
        Except.ok mt' ∧
      (mt'.hls 0).tracecompilation_errors =
        (mt_hl_compiling.hls 0).tracecompilation_errors + 1 ∧
      ((mt_hl_compiling.hls 0).tracecompilation_errors + 1 >
          mt_hl_compiling.trace_failure_threshold →
        (mt'.hls 0).kind = HotLocationKind.dontTrace) ∧
      ((mt_hl_compiling.hls 0).tracecompilation_errors + 1 ≤
          mt_hl_compiling.trace_failure_threshold →
        (mt'.hls 0).kind = HotLocationKind.counting 0) ∧
      mt'.compiled_traces = mt_hl_compiling.compiled_traces :=
  ⟨rfl, claim_C6_root_compile_failure mt_hl_compiling 0 CompilationError.general rfl⟩

@[simp] theorem is_tracing_cons_tracing (a b : Nat) (c : List (Nat × Nat)) (d : Nat)
    (e : List Nat) (f : List String) (rest : List MTThreadState) :
    is_tracing (MTThreadState.tracing a b c d e f :: rest) = true := rfl

/-- The abort path of `transition_control_point` when the tracing thread's
own hot location is in the `Tracing` state: the error counter is bumped,
the kind drops to `Counting(0)` or `DontTrace`, and `AbortTracing` is
returned with the thread state untouched. -/
theorem tcp_abort_tracing (mt : MT) (ts : List MTThreadState) (thl : Nat) (ak : AbortKind)
    (h : (mt.hls thl).kind = HotLocationKind.tracing) :
    ∃ mt', MT.tcp_abort mt ts thl ak = Except.ok (Transition.abortTracing ak, mt', ts) ∧
      (mt'.hls thl).tracecompilation_errors = (mt.hls thl).tracecompilation_errors + 1 ∧
      ((mt'.hls thl).kind = HotLocationKind.counting 0 ∨
        (mt'.hls thl).kind = HotLocationKind.dontTrace) := by
  by_cases hthr : (mt.hls thl).tracecompilation_errors + 1 > mt.trace_failure_threshold
  · refine ⟨mt.setHl thl
      { kind := HotLocationKind.dontTrace,
        tracecompilation_errors := (mt.hls thl).tracecompilation_errors + 1 },
      ?_, ?_, Or.inr ?_⟩
    · simp [MT.tcp_abort, tracecompilation_error, h, hthr]
    · simp [MT.setHl, updf]
    · simp [MT.setHl, updf]
  · refine ⟨mt.setHl thl
      { kind := HotLocationKind.counting 0,
        tracecompilation_errors := (mt.hls thl).tracecompilation_errors + 1 },
      ?_, ?_, Or.inl ?_⟩
    · simp [MT.tcp_abort, tracecompilation_error, h, hthr]
    · simp [MT.setHl, updf]
    · simp [MT.setHl, updf]

/-- C2 (amended): while the top of the thread's state stack is a `Tracing`
frame started at `tfa`, re-entering the control point with a different
frame address `fa` returns `AbortTracing(OutOfFrame)` -- provided that the
target location, if already upgraded to a hot location, has not been seen
earlier in this trace.  (When it has been seen, the inner-loop logic of
mt.rs:626-649 takes precedence: see the counterexample and C3.)  The
hot-location case also inserts the location into `seen_hls` first, and the
cold-location case first upgrades the location to a `Counting` hot
location. -/
theorem claim_C2_out_of_frame (sc2 : Nat → Bool) (mt : MT)
    (thl tfa cpi loc fa : Nat) (seen : List (Nat × Nat)) (proms : List Nat)
    (dstrs : List String) (rest : List MTThreadState) (hfa : fa ≠ tfa) :
    (∀ hlid, mt.locs loc = LocInner.hot hlid → seenContains seen hlid = false →
      (mt.hls thl).kind = HotLocationKind.tracing →
      ∃ mt', MT.transition_control_point sc2 mt
          (MTThreadState.tracing thl tfa seen cpi proms dstrs :: rest) loc fa =
        Except.ok (Transition.abortTracing AbortKind.outOfFrame, mt',
          MTThreadState.tracing thl tfa (seenInsert seen hlid cpi) cpi proms dstrs :: rest)) ∧
    (∀ cnt, mt.locs loc = LocInner.counter cnt →
      ∃ mt', MT.transition_control_point sc2 mt
          (MTThreadState.tracing thl tfa seen cpi proms dstrs :: rest) loc fa =
        Except.ok (Transition.abortTracing AbortKind.outOfFrame, mt',
          MTThreadState.tracing thl tfa seen cpi proms dstrs :: rest)) := by
  constructor
  · intro hlid hloc hseen hthl
    obtain ⟨mt', hmt', _, _⟩ := tcp_abort_tracing mt
      (MTThreadState.tracing thl tfa (seenInsert seen hlid cpi) cpi proms dstrs :: rest)
      thl AbortKind.outOfFrame hthl
    refine ⟨mt', ?_⟩
    simp [MT.transition_control_point, hloc, hseen, hfa, hmt']
  · intro cnt hloc
    refine ⟨{ mt with
      locs := updf mt.locs loc (LocInner.hot mt.next_hl)
      hls := updf mt.hls mt.next_hl
        { kind := HotLocationKind.counting (cnt + 1), tracecompilation_errors := 0 }
      next_hl := mt.next_hl + 1 }, ?_⟩
    simp [MT.transition_control_point, hloc, hfa, inc_count, MT.count_to_hot_location]

/-- C2, counterexample to the claim as stated: the thread is tracing hot
location 1 from frame address 100; the control point is re-entered at
frame address 200 (different frame) at location 5 whose hot location 2 was
already seen at control-point index 3 and is in the `Counting` state.  The
call returns `StopTracing{start_cp_idx: 3}` (the inner-loop path), not
`AbortTracing(OutOfFrame)`. -/
theorem claim_C2_counterexample :
    ((MT.transition_control_point (fun _ => false) mt_c2 ts_c2 5 200).map
      fun r => r.1) = Except.ok (Transition.stopTracing 3) ∧
    (Except.ok (Transition.stopTracing 3) : Except RtPanic Transition) ≠
      Except.ok (Transition.abortTracing AbortKind.outOfFrame) := by
  constructor
  · rfl
  · simp

theorem claim_C2_witness :
    (∀ hlid, mt_c2.locs 9 = LocInner.hot hlid → seenContains [(2, 3)] hlid = false →
      (mt_c2.hls 1).kind = HotLocationKind.tracing →
      ∃ mt', MT.transition_control_point (fun _ => false) mt_c2
          (MTThreadState.tracing 1 100 [(2, 3)] 5 [] [] :: [MTThreadState.interpreting]) 9 200 =
        Except.ok (Transition.abortTracing AbortKind.outOfFrame, mt',
          MTThreadState.tracing 1 100 (seenInsert [(2, 3)] hlid 5) 5 [] [] ::
            [MTThreadState.interpreting])) ∧
    (∀ cnt, mt_c2.locs 9 = LocInner.counter cnt →
      ∃ mt', MT.transition_control_point (fun _ => false) mt_c2
          (MTThreadState.tracing 1 100 [(2, 3)] 5 [] [] :: [MTThreadState.interpreting]) 9 200 =
        Except.ok (Transition.abortTracing AbortKind.outOfFrame, mt',
          MTThreadState.tracing 1 100 [(2, 3)] 5 [] [] :: [MTThreadState.interpreting])) :=
  claim_C2_out_of_frame (fun _ => false) mt_c2 1 100 5 9 200 [(2, 3)] [] []
    [MTThreadState.interpreting] (by decide)

/-- C3: while a thread is tracing (top frame `Tracing`), encountering a
hot location `hlid` already recorded in `seen_hls` at index `idx`:

* if `hlid`'s kind is `Counting`, the call returns
  `StopTracing{start_cp_idx = idx}`, sets `hlid`'s kind to `Compiling`,
  sets the original tracing hot location `thl`'s kind to `Counting(0)`,
  and re-points the thread's tracing frame at `hlid`;
* if `hlid`'s kind is not `Counting` (and the thread's own hot location is
  in the `Tracing` state, as it is while tracing normally), the call
  returns `AbortTracing(Unrolled)`. -/
theorem claim_C3_inner_loop (sc2 : Nat → Bool) (mt : MT)
    (thl tfa cpi loc fa hlid idx : Nat) (seen : List (Nat × Nat)) (proms : List Nat)
    (dstrs : List String) (rest : List MTThreadState)
    (hloc : mt.locs loc = LocInner.hot hlid)
    (hseen : seenContains seen hlid = true)
    (hlook : seenLookup seen hlid = some idx)
    (hne : thl ≠ hlid) :
    (∀ n, (mt.hls hlid).kind = HotLocationKind.counting n →
      MT.transition_control_point sc2 mt
          (MTThreadState.tracing thl tfa seen cpi proms dstrs :: rest) loc fa =
        Except.ok (Transition.stopTracing idx,
          (mt.setHlKind thl (HotLocationKind.counting 0)).setHlKind hlid
            HotLocationKind.compiling,
          MTThreadState.tracing hlid tfa seen cpi proms dstrs :: rest) ∧
      (((mt.setHlKind thl (HotLocationKind.counting 0)).setHlKind hlid
          HotLocationKind.compiling).hls hlid).kind = HotLocationKind.compiling ∧
      (((mt.setHlKind thl (HotLocationKind.counting 0)).setHlKind hlid
          HotLocationKind.compiling).hls thl).kind = HotLocationKind.counting 0) ∧
    ((∀ n, (mt.hls hlid).kind ≠ HotLocationKind.counting n) →
      (mt.hls thl).kind = HotLocationKind.tracing →
      ∃ mt', MT.transition_control_point sc2 mt
          (MTThreadState.tracing thl tfa seen cpi proms dstrs :: rest) loc fa =
        Except.ok (Transition.abortTracing AbortKind.unrolled, mt',
          MTThreadState.tracing thl tfa seen cpi proms dstrs :: rest)) := by
  constructor
  · intro n hk
    refine ⟨?_, ?_, ?_⟩
    · simp [MT.transition_control_point, hloc, hseen, hk, hlook]
    · simp [MT.setHlKind, MT.setHl, updf]
    · simp [MT.setHlKind, MT.setHl, updf, hne, Ne.symm hne]
  · intro hnk hthl
    obtain ⟨mt', hmt', _, _⟩ := tcp_abort_tracing mt
      (MTThreadState.tracing thl tfa seen cpi proms dstrs :: rest) thl AbortKind.unrolled hthl
    refine ⟨mt', ?_⟩
    cases hk : (mt.hls hlid).kind with
    | counting n => exact absurd hk (hnk n)
    | _ => simp [MT.transition_control_point, hloc, hseen, hk, hmt']

theorem claim_C3_witness :
    (∀ n, (mt_c2.hls 2).kind = HotLocationKind.counting n →
      MT.transition_control_point (fun _ => false) mt_c2
          (MTThreadState.tracing 1 100 [(2, 3)] 5 [] [] :: [MTThreadState.interpreting]) 5 100 =
        Except.ok (Transition.stopTracing 3,
          (mt_c2.setHlKind 1 (HotLocationKind.counting 0)).setHlKind 2
            HotLocationKind.compiling,
          MTThreadState.tracing 2 100 [(2, 3)] 5 [] [] :: [MTThreadState.interpreting]) ∧
      (((mt_c2.setHlKind 1 (HotLocationKind.counting 0)).setHlKind 2
          HotLocationKind.compiling).hls 2).kind = HotLocationKind.compiling ∧
      (((mt_c2.setHlKind 1 (HotLocationKind.counting 0)).setHlKind 2
          HotLocationKind.compiling).hls 1).kind = HotLocationKind.counting 0) ∧
    ((∀ n, (mt_c2.hls 2).kind ≠ HotLocationKind.counting n) →
      (mt_c2.hls 1).kind = HotLocationKind.tracing →
      ∃ mt', MT.transition_control_point (fun _ => false) mt_c2
          (MTThreadState.tracing 1 100 [(2, 3)] 5 [] [] :: [MTThreadState.interpreting]) 5 100 =
        Except.ok (Transition.abortTracing AbortKind.unrolled, mt',
          MTThreadState.tracing 1 100 [(2, 3)] 5 [] [] :: [MTThreadState.interpreting])) :=
  claim_C3_inner_loop (fun _ => false) mt_c2 1 100 5 5 100 2 3 [(2, 3)] [] []
    [MTThreadState.interpreting] (by decide) (by decide) (by decide) (by decide)

theorem switch_int_find_no_match (val ow : Nat) (tbs : List Nat) :
    ∀ i vs, val ∉ vs → switch_int_find val tbs ow i vs = Except.ok ow
  | _, [], _ => rfl
  | i, v :: vs, h => by
    have hv : val ≠ v := fun e => h (e ▸ List.mem_cons_self v vs)
    rw [switch_int_find, if_neg hv]
    exact switch_int_find_no_match val ow tbs (i + 1) vs
      (fun hm => h (List.mem_cons_of_mem _ hm))

theorem switch_int_find_match (val ow t : Nat) (tbs : List Nat) :
    ∀ i pre post, val ∉ pre → tbs.get? (i + pre.length) = some t →
      switch_int_find val tbs ow i (pre ++ val :: post) = Except.ok t
  | i, [], post, _, hget => by
    rw [List.nil_append, switch_int_find, if_pos rfl]
    simp only [List.length_nil, Nat.add_zero] at hget
    rw [hget]
  | i, p :: pre, post, hpre, hget => by
    have hv : val ≠ p := fun e => hpre (e ▸ List.mem_cons_self p pre)
    rw [List.cons_append, switch_int_find, if_neg hv]
    refine switch_int_find_match val ow t tbs (i + 1) pre post
      (fun hm => hpre (List.mem_cons_of_mem _ hm)) ?_
    rw [← hget]
    congr 1
    simp
    omega

/-- C9: for a `SwitchInt` terminator executed by the stopgap interpreter,
with `val` the integer discriminant read from `discr`, the current frame's
basic-block index is set to `target_bbs[i]` for the smallest `i` with
`values[i] = val` (expressed as `values = pre ++ val :: post` with
`val ∉ pre` and `i = pre.length`), and to `otherwise_bb` when no value
matches. -/
theorem claim_C9_switch_int (sir_ty : Nat → TyKind) (mem : Int → Nat)
    (frame : StackFrame) (rest : List StackFrame) (discr : IRPlace)
    (values target_bbs : List Nat) (otherwise_bb val : Nat)
    (hread : read_int sir_ty mem frame.mem discr = Except.ok val) :
    (∀ pre post t, values = pre ++ val :: post → val ∉ pre →
      target_bbs.get? pre.length = some t →
      terminator_switch_int sir_ty mem (frame :: rest) discr values target_bbs otherwise_bb =
        Except.ok ({ frame with bbidx := t } :: rest)) ∧
    (val ∉ values →
      terminator_switch_int sir_ty mem (frame :: rest) discr values target_bbs otherwise_bb =
        Except.ok ({ frame with bbidx := otherwise_bb } :: rest)) := by
  constructor
  · intro pre post t hv hnp hget
    subst hv
    rw [terminator_switch_int]
    simp only [hread, bind, Except.bind]
    rw [switch_int_find_match val otherwise_bb t target_bbs 0 pre post hnp
      (by simpa using hget)]
  · intro hnm
    rw [terminator_switch_int]
    simp only [hread, bind, Except.bind]
    rw [switch_int_find_no_match val otherwise_bb target_bbs 0 values hnm]

theorem claim_C9_witness :
    terminator_switch_int sir_ty_w mem_w [frame_w] (IRPlace.val 0 0 0) [5, 7, 9]
        [10, 11, 12] 99 =
      Except.ok [{ frame_w with bbidx := 11 }] ∧
    terminator_switch_int sir_ty_w mem_w [frame_w] (IRPlace.val 0 0 0) [5, 9]
        [10, 11] 99 =
      Except.ok [{ frame_w with bbidx := 99 }] :=
  ⟨(claim_C9_switch_int sir_ty_w mem_w frame_w [] (IRPlace.val 0 0 0) [5, 7, 9]
      [10, 11, 12] 99 7 (by rfl)).1 [5] [9] 11 rfl (by decide) rfl,
   (claim_C9_switch_int sir_ty_w mem_w frame_w [] (IRPlace.val 0 0 0) [5, 9]
      [10, 11] 99 7 (by rfl)).2 (by decide)⟩

/-- The allocator state after running `[spillGp 5 3, forceDirect 4 16]`
from `ra_w`: the spill request for the already-spilled instruction 2 is a
no-op and only instruction 4 gains a `Direct` slot. -/
def ra_w2 : LSRegAlloc :=
  { ra_w with spills := updf ra_w.spills 4 (SpillState.direct 16) }

theorem spill_gp_preserves (env : RAEnv) (ra : LSRegAlloc) (cur reg : Nat)
    (ra2 : LSRegAlloc) (em : List StoreEmit)
    (h : spill_gp_if_not_already env ra cur reg = Except.ok (ra2, em)) (iidx : Nat)
    (hne : ra.spills iidx ≠ SpillState.empty) :
    ra2.spills iidx = ra.spills iidx := by
  unfold spill_gp_if_not_already at h
  split at h
  · simp at h
  · simp at h
    rw [← h.1]
  · simp at h
    rw [← h.1]
  · rename_i q e heq
    split at h
    · rename_i hc
      simp only [AbstractStack.grow] at h
      split at h
      · simp at h
        rw [← h.1]
        exact updf_other _ _ _ _ fun hiq => hne (hiq ▸ hc.2)
      · simp at h
    · simp at h
      rw [← h.1]

theorem spill_fp_preserves (env : RAEnv) (ra : LSRegAlloc) (reg : Nat)
    (ra2 : LSRegAlloc) (em : List StoreEmit)
    (h : spill_fp_if_not_already env ra reg = Except.ok (ra2, em)) (iidx : Nat)
    (hne : ra.spills iidx ≠ SpillState.empty) :
    ra2.spills iidx = ra.spills iidx := by
  unfold spill_fp_if_not_already at h
  split at h
  · simp at h
    rw [← h.1]
  · simp at h
    rw [← h.1]
  · simp at h
    rw [← h.1]
  · rename_i q e heq
    split at h
    · rename_i hc
      simp only [AbstractStack.grow] at h
      split at h
      · simp at h
        rw [← h.1]
        exact updf_other _ _ _ _ fun hiq => hne (hiq ▸ hc)
      · simp at h
    · simp at h
      rw [← h.1]

theorem force_direct_preserves (ra : LSRegAlloc) (j : Nat) (off : Int)
    (ra2 : LSRegAlloc) (h : force_assign_inst_direct ra j off = Except.ok ra2) (iidx : Nat)
    (hne : ra.spills iidx ≠ SpillState.empty) :
    ra2.spills iidx = ra.spills iidx := by
  unfold force_assign_inst_direct at h
  split at h
  · simp at h
  · rename_i hj
    simp at h
    rw [← h]
    exact updf_other _ _ _ _ fun hiq => hne (hiq ▸ not_not.mp hj)

theorem force_indirect_preserves (ra : LSRegAlloc) (j : Nat) (off : Int)
    (ra2 : LSRegAlloc) (h : force_assign_inst_indirect ra j off = Except.ok ra2) (iidx : Nat)
    (hne : ra.spills iidx ≠ SpillState.empty) :
    ra2.spills iidx = ra.spills iidx := by
  unfold force_assign_inst_indirect at h
  split at h
  · simp at h
  · rename_i hj
    simp at h
    rw [← h]
    exact updf_other _ _ _ _ fun hiq => hne (hiq ▸ not_not.mp hj)

theorem force_spill_gp_preserves (env : RAEnv) (ra : LSRegAlloc) (j reg : Nat)
    (ra2 : LSRegAlloc) (em : List StoreEmit)
    (h : force_assign_and_spill_inst_gp_reg env ra j reg = Except.ok (ra2, em)) (iidx : Nat)
    (hne : ra.spills iidx ≠ SpillState.empty) :
    ra2.spills iidx = ra.spills iidx := by
  unfold force_assign_and_spill_inst_gp_reg at h
  split at h
  · simp at h
  · rename_i hj
    have hj' : ra.spills j = SpillState.empty := not_not.mp hj
    simp only [AbstractStack.grow] at h
    split at h
    · split at h
      · simp at h
      · simp at h
        rw [← h.1]
        exact updf_other _ _ _ _ fun hiq => hne (hiq ▸ hj')
    · split at h
      · simp at h
        rw [← h.1]
        exact updf_other _ _ _ _ fun hiq => hne (hiq ▸ hj')
      · simp at h

theorem ra_step_preserves (env : RAEnv) (ra : LSRegAlloc) (op : RAOp) (ra2 : LSRegAlloc)
    (h : ra_step env ra op = Except.ok ra2) (iidx : Nat)
    (hne : ra.spills iidx ≠ SpillState.empty) :
    ra2.spills iidx = ra.spills iidx := by
  cases op with
  | spillGp cur reg =>
    rw [ra_step] at h
    cases hs : spill_gp_if_not_already env ra cur reg with
    | ok p =>
      rw [hs] at h
      simp at h
      rw [← h]
      exact spill_gp_preserves env ra cur reg p.1 p.2 (by rw [hs]) iidx hne
    | error e =>
      rw [hs] at h
      simp at h
  | spillFp reg =>
    rw [ra_step] at h
    cases hs : spill_fp_if_not_already env ra reg with
    | ok p =>
      rw [hs] at h
      simp at h
      rw [← h]
      exact spill_fp_preserves env ra reg p.1 p.2 (by rw [hs]) iidx hne
    | error e =>
      rw [hs] at h
      simp at h
  | forceDirect j off =>
    rw [ra_step] at h
    exact force_direct_preserves ra j off ra2 h iidx hne
  | forceIndirect j off =>
    rw [ra_step] at h
    exact force_indirect_preserves ra j off ra2 h iidx hne
  | forceSpillGp j reg =>
    rw [ra_step] at h
    cases hs : force_assign_and_spill_inst_gp_reg env ra j reg with
    | ok p =>
      rw [hs] at h
      simp at h
      rw [← h]
      exact force_spill_gp_preserves env ra j reg p.1 p.2 (by rw [hs]) iidx hne
    | error e =>
      rw [hs] at h
      simp at h

theorem ra_run_preserves (env : RAEnv) :
    ∀ (ops : List RAOp) (ra ra2 : LSRegAlloc), ra_run env ra ops = Except.ok ra2 →
      ∀ iidx, ra.spills iidx ≠ SpillState.empty → ra2.spills iidx = ra.spills iidx
  | [], ra, ra2, h, iidx, _ => by
    simp [ra_run] at h
    rw [← h]
  | op :: ops, ra, ra2, h, iidx, hne => by
    rw [ra_run] at h
    split at h
    · rename_i ra1 heq
      have hstep := ra_step_preserves env ra op ra1 heq iidx hne
      have := ra_run_preserves env ops ra1 ra2 h iidx (by rw [hstep]; exact hne)
      rw [this, hstep]
    · simp at h

/-- C8: a request to spill a value that is already spilled changes no
allocator state and emits no store (`spill_gp_if_not_already` returns the
state unchanged with an empty emission list); and across any sequence of
spill operations, a spill slot, once allocated (`spills[iidx]` is not
`Empty`), is never changed: at most one spill slot per instruction over
the trace's lifetime. -/
theorem claim_C8_spill_stability (env : RAEnv) :
    (∀ (ra : LSRegAlloc) (cur reg q : Nat) (e : RegExtension),
      ra.gp_reg_states reg = RegState.fromInst q e →
      ra.spills q ≠ SpillState.empty →
      spill_gp_if_not_already env ra cur reg = Except.ok (ra, [])) ∧
    (∀ (ops : List RAOp) (ra ra2 : LSRegAlloc), ra_run env ra ops = Except.ok ra2 →
      ∀ iidx, ra.spills iidx ≠ SpillState.empty → ra2.spills iidx = ra.spills iidx) := by
  constructor
  · intro ra cur reg q e hr hs
    have hc : ¬ (env.still_used_after cur q = true ∧ ra.spills q = SpillState.empty) :=
      fun hc => hs hc.2
    simp [spill_gp_if_not_already, hr, hc]
  · exact ra_run_preserves env

theorem claim_C8_witness :
    (ra_w.gp_reg_states 3 = RegState.fromInst 2 RegExtension.undefined) ∧
    (spill_gp_if_not_already ra_env_w ra_w 5 3 = Except.ok (ra_w, [])) ∧
    (ra_run ra_env_w ra_w [RAOp.spillGp 5 3, RAOp.forceDirect 4 16] = Except.ok ra_w2) ∧
    ra_w2.spills 2 = ra_w.spills 2 :=
  ⟨rfl,
   (claim_C8_spill_stability ra_env_w).1 ra_w 5 3 2 RegExtension.undefined rfl (by decide),
   rfl,
   (claim_C8_spill_stability ra_env_w).2 [RAOp.spillGp 5 3, RAOp.forceDirect 4 16]
     ra_w ra_w2 rfl 2 (by decide)⟩

theorem cr_step_bound (rets : List CompRetAddr) (op : CROp)
    (h : rets.length ≤ PT_MAX_COMPRETS) :
    ∃ l, cr_step rets op = Except.ok l ∧ l.length ≤ PT_MAX_COMPRETS := by
  cases op with
  | push r =>
    refine ⟨(if rets.length = PT_MAX_COMPRETS then rets.drop 1 else rets) ++ [r], ?_, ?_⟩
    · simp [cr_step, CompressedReturns.push, Nat.not_lt.mpr h]
    · by_cases he : rets.length = PT_MAX_COMPRETS
      · rw [if_pos he]
        simp only [List.length_append, List.length_drop, List.length_cons,
          List.length_nil, PT_MAX_COMPRETS] at h he ⊢
        omega
      · rw [if_neg he]
        simp only [List.length_append, List.length_cons, List.length_nil,
          PT_MAX_COMPRETS] at h he ⊢
        omega
  | pop =>
    refine ⟨rets.dropLast, rfl, ?_⟩
    simp only [List.length_dropLast, PT_MAX_COMPRETS] at h ⊢
    omega
  | clear => exact ⟨[], rfl, by simp⟩

theorem cr_run_bound :
    ∀ (ops : List CROp) (rets : List CompRetAddr), rets.length ≤ PT_MAX_COMPRETS →
      ∃ l, cr_run rets ops = Except.ok l ∧ l.length ≤ PT_MAX_COMPRETS
  | [], rets, h => ⟨rets, rfl, h⟩
  | op :: ops, rets, h => by
    obtain ⟨l1, hs, hl1⟩ := cr_step_bound rets op h
    rw [cr_run, hs]
    exact cr_run_bound ops l1 hl1

/-- C5: across any decoder run (any sequence of push / pop / clear
operations on the compressed-return stack, starting from the empty stack),
the stack never holds more than `PT_MAX_COMPRETS = 64` entries (and no
push ever trips the stack-size assertion); pushing onto a full stack
evicts the oldest entry instead of growing the stack. -/
theorem claim_C5_compret_bound :
    (∀ ops : List CROp, ∃ l, cr_run [] ops = Except.ok l ∧
      l.length ≤ PT_MAX_COMPRETS) ∧
    (∀ (l : List CompRetAddr) (r : CompRetAddr), l.length = PT_MAX_COMPRETS →
      CompressedReturns.push l r = Except.ok (l.drop 1 ++ [r]) ∧
      (l.drop 1 ++ [r]).length = PT_MAX_COMPRETS) := by
  constructor
  · intro ops
    exact cr_run_bound ops [] (by simp)
  · intro l r hl
    constructor
    · simp [CompressedReturns.push, hl]
    · simp [List.length_drop, hl, PT_MAX_COMPRETS]

theorem claim_C5_witness :
    (∃ l, cr_run [] [CROp.push (CompRetAddr.vaddr 1), CROp.pop,
        CROp.push (CompRetAddr.afterCall 2), CROp.clear] = Except.ok l ∧
      l.length ≤ PT_MAX_COMPRETS) ∧
    ((List.replicate PT_MAX_COMPRETS (CompRetAddr.vaddr 0)).length = PT_MAX_COMPRETS ∧
      CompressedReturns.push (List.replicate PT_MAX_COMPRETS (CompRetAddr.vaddr 0))
          (CompRetAddr.afterCall 9) =
        Except.ok ((List.replicate PT_MAX_COMPRETS (CompRetAddr.vaddr 0)).drop 1 ++
          [CompRetAddr.afterCall 9]) ∧
      ((List.replicate PT_MAX_COMPRETS (CompRetAddr.vaddr 0)).drop 1 ++
        [CompRetAddr.afterCall 9]).length = PT_MAX_COMPRETS) :=
  ⟨claim_C5_compret_bound.1 [CROp.push (CompRetAddr.vaddr 1), CROp.pop,
      CROp.push (CompRetAddr.afterCall 2), CROp.clear],
   by simp,
   claim_C5_compret_bound.2 (List.replicate PT_MAX_COMPRETS (CompRetAddr.vaddr 0))
     (CompRetAddr.afterCall 9) (by simp)⟩

/-- C4 (amended): the decoder classifies a return as compressed exactly
when a TNT decision is pending -- the TNT queue is non-empty, or the next
TNT-or-TIP packet carries TNT bits.  However, because compressed returns
are disabled in the perf collection front-end, a compressed
classification makes the decoder panic
(`unreachable!("compressed returns are disabled in collect.c")`) inside
`is_return_compressed` instead of popping the compressed-return stack.  An
uncompressed return takes its target from the accompanying TIP update,
which `is_return_compressed` has already applied to `cur_loc`. -/
theorem claim_C4_return_compression (env : DecoderEnv) (fuel : Nat) (st : YkPTState) :
    (st.tnts ≠ [] →
      is_return_compressed env fuel st = Except.error IterErr.unreachableCompRets) ∧
    (∀ pkt st1, st.tnts = [] →
      seek_tnt_or_tipF env fuel true true st = Except.ok (pkt, st1) →
      (pkt.tnt_bits.isSome = true →
        is_return_compressed env fuel st = Except.error IterErr.unreachableCompRets) ∧
      (pkt.tnt_bits = none → is_return_compressed env fuel st = Except.ok (false, st1))) ∧
    (∀ ent st1, ent.successor = SuccessorKind.ret →
      is_return_compressed env fuel st = Except.ok (false, st1) →
      (∀ vaddr, st1.cur_loc = ObjLoc.mainObj vaddr →
        follow_blockmap_successor env fuel ent st =
          Except.ok (lookup_block_by_vaddr env vaddr, st1)) ∧
      (∀ o, st1.cur_loc = ObjLoc.otherObjOrUnknown o →
        follow_blockmap_successor env fuel ent st = Except.ok (Block.unknown, st1))) := by
  refine ⟨?_, ?_, ?_⟩
  · intro h
    simp [is_return_compressed, h, bind, Except.bind]
  · intro pkt st1 hT hseek
    constructor
    · intro hsome
      simp [is_return_compressed, hT, hseek, hsome, bind, Except.bind]
    · intro hnone
      simp [is_return_compressed, hT, hseek, hnone, bind, Except.bind]
  · intro ent st1 hsucc hret
    constructor
    · intro vaddr hcl
      simp [follow_blockmap_successor, hsucc, hret, hcl, bind, Except.bind]
    · intro o hcl
      simp [follow_blockmap_successor, hsucc, hret, hcl, bind, Except.bind]

/-- C4, counterexample to the claim as stated: a `Return` blockmap
successor reached with a TNT decision pending (`tnts = [true]`) and a
non-empty compressed-return stack does not pop the stack -- the decoder
panics (`unreachable!`), because compressed returns are disabled in the
perf front-end. -/
theorem claim_C4_counterexample :
    st_c4.tnts = [true] ∧
    st_c4.comprets = [CompRetAddr.vaddr 500] ∧
    follow_blockmap_successor env_c4 9 ent_ret st_c4 =
      Except.error IterErr.unreachableCompRets :=
  ⟨rfl, rfl, rfl⟩

theorem claim_C4_witness :
    (is_return_compressed env_c4 9 st_c4 = Except.error IterErr.unreachableCompRets) ∧
    (seek_tnt_or_tipF env_c4 9 true true st_c4b = Except.ok (tip_pkt_800, st_c4b1)) ∧
    (is_return_compressed env_c4 9 st_c4b = Except.ok (false, st_c4b1)) ∧
    (follow_blockmap_successor env_c4 9 ent_ret st_c4b =
      Except.ok (Block.vAddrRange 800 810, st_c4b1)) :=
  ⟨(claim_C4_return_compression env_c4 9 st_c4).1 (by decide),
   by rfl,
   ((claim_C4_return_compression env_c4 9 st_c4b).2.1 tip_pkt_800 st_c4b1 (by rfl)
     (by rfl)).2 (by rfl),
   ((claim_C4_return_compression env_c4 9 st_c4b).2.2 ent_ret st_c4b1 (by rfl)
     (((claim_C4_return_compression env_c4 9 st_c4b).2.1 tip_pkt_800 st_c4b1 (by rfl)
       (by rfl)).2 (by rfl))).1 800 (by rfl)⟩

end Yk
